import Mathlib

/-!
# Bootstrap rendering of the machine-config operator

A shallow embedding of `pkg/operator/bootstrap.go`: the function `RenderBootstrap`,
the platform resolver `appendManifestsByPlatform` and the cloud-provider loader
`loadBootstrapCloudProviderConfig`, followed by theorems about them.

Conventions of the embedding.

* A Go `[]byte` and the contents of a Go `string` that carries a payload are both a
  list of octets (`Bytes`); the conversions `string(b)` and `[]byte(s)` copy the octets
  and are therefore the identity here.  A nil slice and an empty slice are both `[]`,
  except for the result of `ioutil.ReadFile`, which the source compares with `nil` and
  which is therefore an `Option`.
* Names (file paths, template names, map keys) are `String`.
* A Go pointer that the source compares with `nil`, or that the upstream API declares
  optional, is an `Option`; dereferencing `none` is a panic.
* The operating system, the decoders, the discover step and the template renderer are
  fields of an environment `Env`.  The pointer `imgs` and the spec that a successful
  discover step returns are taken to be non-nil.
* Calls of `glog` are left out.
-/

set_option autoImplicit false

namespace Bootstrap

/-- One octet of a payload. -/
abbrev Byte := Fin 256

/-- A byte slice, or the contents of a payload-carrying string. -/
abbrev Bytes := List Byte

/-- A Go `error` value: its message, and what `os.IsNotExist` answers on it. -/
structure GoError where
  msg : String
  isNotExist : Bool
deriving DecidableEq, Repr

/-- The value of `fmt.Errorf(...)`: an error that `os.IsNotExist` rejects. -/
def Errorf (msg : String) : GoError :=
  { msg := msg, isNotExist := false }

/-- A run-time panic of the Go program. -/
inductive Panic where
  | nilPointerDereference
deriving DecidableEq, Repr

/-! ## The API types of `github.com/openshift/api/config/v1` that the source reads -/

namespace configv1

/-- The type of `Infrastructure.Spec.CloudConfig`: a reference to a config map and a key in it. -/
structure ConfigMapFileReference where
  Name : String
  Key : String
deriving DecidableEq, Repr

structure InfrastructureSpec where
  CloudConfig : ConfigMapFileReference
deriving DecidableEq, Repr

structure BareMetalPlatformStatus where
  APIServerInternalIP : String
deriving DecidableEq, Repr

structure OpenStackPlatformStatus where
  APIServerInternalIP : String
deriving DecidableEq, Repr

structure OvirtPlatformStatus where
  APIServerInternalIP : String
deriving DecidableEq, Repr

structure KubevirtPlatformStatus where
  APIServerInternalIP : String
deriving DecidableEq, Repr

structure VSpherePlatformStatus where
  APIServerInternalIP : String
deriving DecidableEq, Repr

/-- The platform-status block: one optional pointer per platform kind. -/
structure PlatformStatus where
  BareMetal : Option BareMetalPlatformStatus
  OpenStack : Option OpenStackPlatformStatus
  Ovirt : Option OvirtPlatformStatus
  Kubevirt : Option KubevirtPlatformStatus
  VSphere : Option VSpherePlatformStatus
deriving DecidableEq, Repr

/-- The status of the descriptor; `PlatformStatus` is an optional pointer upstream. -/
structure InfrastructureStatus where
  PlatformStatus : Option configv1.PlatformStatus
  APIServerInternalURL : String
deriving DecidableEq, Repr

structure Infrastructure where
  Spec : InfrastructureSpec
  Status : InfrastructureStatus
deriving DecidableEq, Repr

/-- The proxy record; the source hands it to the discover step unread. -/
structure Proxy where
  Name : String
deriving DecidableEq, Repr

/-- The network record; the source hands it to the discover step unread. -/
structure Network where
  Name : String
deriving DecidableEq, Repr

/-- The DNS record; the source hands it to the discover step unread. -/
structure DNS where
  Name : String
deriving DecidableEq, Repr

end configv1

namespace corev1

/-- A config map: `Data` is the Go `map[string]string`, `none` for a missing key. -/
structure ConfigMap where
  Data : String → Option Bytes

/-- The type of `ControllerConfigSpec.PullSecret`, held through a pointer. -/
structure ObjectReference where
  Namespace : String
  Name : String
deriving DecidableEq, Repr

end corev1

/-- What `runtime.Decode` yields: an object of one of the concrete types the source
asserts, or an object of some other type, known by its `%T` name. -/
inductive Object where
  | Infrastructure (v : configv1.Infrastructure)
  | Proxy (v : configv1.Proxy)
  | Network (v : configv1.Network)
  | DNS (v : configv1.DNS)
  | ConfigMap (v : corev1.ConfigMap)
  | Other (typeName : String)

/-- The `%T` rendering of a decoded object. -/
def Object.typeName : Object → String
  | .Infrastructure _ => "*v1.Infrastructure"
  | .Proxy _ => "*v1.Proxy"
  | .Network _ => "*v1.Network"
  | .DNS _ => "*v1.DNS"
  | .ConfigMap _ => "*v1.ConfigMap"
  | .Other n => n

/-! ## The types of this repository that the source uses -/

namespace templatectrl

/-- Modelled from the spec: the "fixed set of logical component keys" of the
image-reference mapping.  The string constants are declared in
`pkg/controller/template`, outside the source at hand; each constant is one
constructor here. -/
inductive ImageKey where
  | MachineConfigOperatorKey
  | APIServerWatcherKey
  | InfraImageKey
  | KeepalivedKey
  | CorednsKey
  | MdnsPublisherKey
  | HaproxyKey
  | BaremetalRuntimeCfgKey
deriving DecidableEq, Repr

end templatectrl

/-- Modelled from the spec: the image references that go into the render
configuration unchanged (`imgs.RenderConfigImages`); the struct is declared outside
the source at hand. -/
structure RenderConfigImages where
  MachineConfigOperator : String
deriving DecidableEq, Repr

/-- Modelled from the spec: the "image-reference table" `Images`, with the fields
that `RenderBootstrap` reads; the struct is declared outside the source at hand. -/
structure Images where
  RenderConfigImages : Bootstrap.RenderConfigImages
  MachineOSContent : String
  MachineConfigOperator : String
  InfraImage : String
  Keepalived : String
  Coredns : String
  MdnsPublisher : String
  Haproxy : String
  BaremetalRuntimeCfg : String
deriving DecidableEq, Repr

/-- Modelled from the spec: the "UnifiedConfigSpec" (`mcfgv1.ControllerConfigSpec`,
declared outside the source at hand).  `Discovered` stands for the settings that only
the discover step fills; the other fields are the ones `RenderBootstrap` assigns. -/
structure ControllerConfigSpec where
  Discovered : String
  CloudProviderConfig : Bytes
  AdditionalTrustBundle : Bytes
  KubeAPIServerServingCAData : Bytes
  CloudProviderCAData : Bytes
  RootCAData : Bytes
  PullSecret : Option corev1.ObjectReference
  OSImageURL : String
  ReleaseImage : String
  Images : List (templatectrl.ImageKey × String)
deriving DecidableEq, Repr

/-- Modelled from the spec: the render configuration, "the UnifiedConfigSpec plus a
small side-configuration bundle (serving-CA text, image references, an
API-server-internal endpoint)"; the struct is declared outside the source at hand. -/
structure renderConfig where
  TargetNamespace : String
  KubeAPIServerServingCA : Bytes
  ControllerConfig : ControllerConfigSpec
  Images : RenderConfigImages
  APIServerURL : String
deriving DecidableEq, Repr

/-- Modelled from the spec: `getRenderConfig` (defined outside the source at hand)
packs its five arguments into the render configuration. -/
def getRenderConfig (tnamespace : String) (kubeAPIServerServingCA : Bytes)
    (ccSpec : ControllerConfigSpec) (imgs : RenderConfigImages) (apiServerURL : String) :
    renderConfig :=
  { TargetNamespace := tnamespace
    KubeAPIServerServingCA := kubeAPIServerServingCA
    ControllerConfig := ccSpec
    Images := imgs
    APIServerURL := apiServerURL }

/-- The struct `manifest` of the source: a template name, literal data, a destination. -/
structure manifest where
  name : String
  data : Bytes
  filename : String
deriving DecidableEq, Repr

/-! ## The platform resolver -/

/-- The function `appendManifestsByPlatform` (source lines 212-320).  Every test reads
through the pointer `infra.Status.PlatformStatus`; with a nil pointer the first of
them, on line 214, panics. -/
def appendManifestsByPlatform (manifests : List manifest) (infra : configv1.Infrastructure) :
    Except Panic (List manifest) :=
  match infra.Status.PlatformStatus with
  | none => .error .nilPointerDereference
  | some platformStatus =>
    let manifests :=
      if platformStatus.BareMetal ≠ none then
        manifests ++
          [ { name := "manifests/on-prem/coredns.yaml", data := []
              filename := "baremetal/manifests/coredns.yaml" },
            { name := "manifests/on-prem/coredns-corefile.tmpl", data := []
              filename := "baremetal/static-pod-resources/coredns/Corefile.tmpl" },
            { name := "manifests/on-prem/keepalived.yaml", data := []
              filename := "baremetal/manifests/keepalived.yaml" },
            { name := "manifests/on-prem/keepalived.conf.tmpl", data := []
              filename := "baremetal/static-pod-resources/keepalived/keepalived.conf.tmpl" } ]
      else manifests
    let manifests :=
      if platformStatus.OpenStack ≠ none then
        manifests ++
          [ { name := "manifests/on-prem/coredns.yaml", data := []
              filename := "openstack/manifests/coredns.yaml" },
            { name := "manifests/on-prem/coredns-corefile.tmpl", data := []
              filename := "openstack/static-pod-resources/coredns/Corefile.tmpl" },
            { name := "manifests/on-prem/keepalived.yaml", data := []
              filename := "openstack/manifests/keepalived.yaml" },
            { name := "manifests/on-prem/keepalived.conf.tmpl", data := []
              filename := "openstack/static-pod-resources/keepalived/keepalived.conf.tmpl" } ]
      else manifests
    let manifests :=
      if platformStatus.Ovirt ≠ none then
        manifests ++
          [ { name := "manifests/on-prem/coredns.yaml", data := []
              filename := "ovirt/manifests/coredns.yaml" },
            { name := "manifests/on-prem/coredns-corefile.tmpl", data := []
              filename := "ovirt/static-pod-resources/coredns/Corefile.tmpl" },
            { name := "manifests/on-prem/keepalived.yaml", data := []
              filename := "ovirt/manifests/keepalived.yaml" },
            { name := "manifests/on-prem/keepalived.conf.tmpl", data := []
              filename := "ovirt/static-pod-resources/keepalived/keepalived.conf.tmpl" } ]
      else manifests
    let manifests :=
      if platformStatus.Kubevirt ≠ none then
        manifests ++
          [ { name := "manifests/on-prem/coredns.yaml", data := []
              filename := "kubevirt/manifests/coredns.yaml" },
            { name := "manifests/on-prem/coredns-corefile.tmpl", data := []
              filename := "kubevirt/static-pod-resources/coredns/Corefile.tmpl" },
            { name := "manifests/on-prem/keepalived.yaml", data := []
              filename := "kubevirt/manifests/keepalived.yaml" },
            { name := "manifests/on-prem/keepalived.conf.tmpl", data := []
              filename := "kubevirt/static-pod-resources/keepalived/keepalived.conf.tmpl" } ]
      else manifests
    let manifests :=
      -- VSphere != nil && VSphere.APIServerInternalIP != ""
      if (match platformStatus.VSphere with
          | some vsphere => decide (vsphere.APIServerInternalIP ≠ "")
          | none => false) then
        manifests ++
          [ { name := "manifests/on-prem/coredns.yaml", data := []
              filename := "vsphere/manifests/coredns.yaml" },
            { name := "manifests/on-prem/coredns-corefile.tmpl", data := []
              filename := "vsphere/static-pod-resources/coredns/Corefile.tmpl" },
            { name := "manifests/on-prem/keepalived.yaml", data := []
              filename := "vsphere/manifests/keepalived.yaml" },
            { name := "manifests/on-prem/keepalived.conf.tmpl", data := []
              filename := "vsphere/static-pod-resources/keepalived/keepalived.conf.tmpl" } ]
      else manifests
    .ok manifests

/-! ## The environment -/

/-- What the file system holds under a path. -/
inductive FileState where
  | present (data : Bytes)
  | absent
  | unreadable (msg : String)
deriving DecidableEq, Repr

/-- A call that acts on the file system, whether or not it succeeds:
`os.MkdirAll(dir, perm)` or `ioutil.WriteFile(path, data, perm)`. -/
inductive FsOp where
  | MkdirAll (dir : String) (perm : Nat)
  | WriteFile (path : String) (data : Bytes) (perm : Nat)
deriving DecidableEq, Repr

/-- Everything `RenderBootstrap` calls that lies outside the source at hand.

* `files`: the file system as the reads find it (all reads precede all writes).
* `decodeConfig`, `decodeCore`: `runtime.Decode` with the universal decoder of
  `configv1.SchemeGroupVersion` and of `corev1.SchemeGroupVersion`.
* `createDiscoveredControllerConfigSpec`: the discover step.
* `renderAsset`: the template renderer.
* `Join`, `Dir`: `filepath.Join` and `filepath.Dir`.
* `MkdirAll`, `WriteFile`: whether the call fails, given the effects so far. -/
structure Env where
  files : String → FileState
  decodeConfig : Bytes → Except GoError Object
  decodeCore : Bytes → Except GoError Object
  createDiscoveredControllerConfigSpec :
    configv1.Infrastructure → configv1.Network → configv1.Proxy → configv1.DNS →
      Except GoError ControllerConfigSpec
  renderAsset : renderConfig → String → Except GoError Bytes
  Join : String → String → String
  Dir : String → String
  MkdirAll : List FsOp → String → Nat → Option GoError
  WriteFile : List FsOp → String → Bytes → Nat → Option GoError

/-- The call `ioutil.ReadFile(name)`: the pair (data, err) of the Go call.  Opening the
empty path fails with "no such file or directory"; a file that is there yields a
non-nil slice, also when it is empty; a failure yields nil data. -/
def ReadFile (env : Env) (name : String) : Option Bytes × Option GoError :=
  if name = "" then
    (none, some { msg := "open : no such file or directory", isNotExist := true })
  else
    match env.files name with
    | .present data => (some data, none)
    | .absent =>
      (none, some { msg := "open " ++ name ++ ": no such file or directory", isNotExist := true })
    | .unreadable msg => (none, some { msg := msg, isNotExist := false })

/-! ## The map `filesData` -/

/-- The Go `map[string][]byte` of the source, newest binding first. -/
abbrev FilesData := List (String × Bytes)

/-- The statement `m[k] = v`. -/
def mapAssign (m : FilesData) (k : String) (v : Bytes) : FilesData :=
  (k, v) :: m

/-- The two-valued index expression `v, ok := m[k]`. -/
def mapLookup (m : FilesData) (k : String) : Option Bytes :=
  List.lookup k m

/-- The index expression `m[k]`: the zero value, a nil slice, for a missing key. -/
def mapIndex (m : FilesData) (k : String) : Bytes :=
  (mapLookup m k).getD []

/-! ## `loadBootstrapCloudProviderConfig` -/

/-- The function `loadBootstrapCloudProviderConfig` (source lines 323-342). -/
def loadBootstrapCloudProviderConfig (env : Env) (infra : configv1.Infrastructure)
    (cloudConfigFile : String) : Except GoError Bytes :=
  match ReadFile env cloudConfigFile with
  | (_, some err) => .error err
  | (data, none) =>
    match env.decodeCore (data.getD []) with
    | .error err => .error err
    | .ok obji =>
      match obji with
      | .ConfigMap cm =>
        -- cloudConf, ok := cm.Data["cloud.conf"]
        match cm.Data "cloud.conf" with
        | some cloudConf => .ok cloudConf
        | none => .ok ((cm.Data infra.Spec.CloudConfig.Key).getD [])
      | _ => .error (Errorf ("expected *corev1.ConfigMap found " ++ obji.typeName))

/-! ## `RenderBootstrap` -/

/-- The parameters of `RenderBootstrap`, under their names in the source. -/
structure Args where
  additionalTrustBundleFile : String
  proxyFile : String
  clusterConfigConfigMapFile : String
  infraFile : String
  networkFile : String
  dnsFile : String
  cloudConfigFile : String
  cloudProviderCAFile : String
  rootCAFile : String
  kubeAPIServerServingCA : String
  pullSecretFile : String
  imgs : Images
  destinationDir : String
  releaseImage : String
deriving DecidableEq, Repr

/-- The slice `files` of source lines 38-52. -/
def RenderBootstrap.files (a : Args) : List String :=
  let files :=
    [a.proxyFile, a.clusterConfigConfigMapFile, a.infraFile, a.networkFile, a.rootCAFile,
      a.pullSecretFile, a.dnsFile]
  let files := if a.kubeAPIServerServingCA ≠ "" then files ++ [a.kubeAPIServerServingCA] else files
  let files := if a.cloudProviderCAFile ≠ "" then files ++ [a.cloudProviderCAFile] else files
  files

/-- The loop of source lines 53-59, started with the map `filesData`. -/
def RenderBootstrap.readFiles (env : Env) : List String → FilesData → Except GoError FilesData
  | [], filesData => .ok filesData
  | file :: rest, filesData =>
    match ReadFile env file with
    | (_, some err) => .error err
    | (data, none) => RenderBootstrap.readFiles env rest (mapAssign filesData file (data.getD []))

/-- Source lines 62-69: decode the infrastructure payload and assert its type. -/
def RenderBootstrap.decodeInfrastructure (env : Env) (payload : Bytes) :
    Except GoError configv1.Infrastructure :=
  match env.decodeConfig payload with
  | .error err => .error err
  | .ok obji =>
    match obji with
    | .Infrastructure infra => .ok infra
    | _ => .error (Errorf ("expected *configv1.Infrastructure found " ++ obji.typeName))

/-- Source lines 71-78: decode the proxy payload and assert its type. -/
def RenderBootstrap.decodeProxy (env : Env) (payload : Bytes) : Except GoError configv1.Proxy :=
  match env.decodeConfig payload with
  | .error err => .error err
  | .ok obji =>
    match obji with
    | .Proxy proxy => .ok proxy
    | _ => .error (Errorf ("expected *configv1.Proxy found " ++ obji.typeName))

/-- Source lines 80-87: decode the network payload and assert its type. -/
def RenderBootstrap.decodeNetwork (env : Env) (payload : Bytes) :
    Except GoError configv1.Network :=
  match env.decodeConfig payload with
  | .error err => .error err
  | .ok obji =>
    match obji with
    | .Network network => .ok network
    | _ => .error (Errorf ("expected *configv1.Network found " ++ obji.typeName))

/-- Source lines 89-96: decode the DNS payload and assert its type. -/
def RenderBootstrap.decodeDNS (env : Env) (payload : Bytes) : Except GoError configv1.DNS :=
  match env.decodeConfig payload with
  | .error err => .error err
  | .ok obji =>
    match obji with
    | .DNS dns => .ok dns
    | _ => .error (Errorf ("expected *configv1.DNS found " ++ obji.typeName))

/-- Source lines 103-117: the optional additional trust bundle. -/
def RenderBootstrap.additionalTrustBundle (env : Env) (additionalTrustBundleFile : String)
    (spec : ControllerConfigSpec) : Except GoError ControllerConfigSpec :=
  match ReadFile env additionalTrustBundleFile with
  | (additionalTrustBundleData, err) =>
    -- err != nil && !os.IsNotExist(err)
    match err.filter (fun e => !e.isNotExist) with
    | some err => .error err
    | none =>
      -- additionalTrustBundleData != nil
      match additionalTrustBundleData with
      | none => .ok spec
      | some additionalTrustBundleData =>
        match env.decodeCore additionalTrustBundleData with
        | .error err => .error err
        | .ok obji =>
          match obji with
          | .ConfigMap additionalTrustBundle =>
            .ok { spec with
              AdditionalTrustBundle := (additionalTrustBundle.Data "ca-bundle.crt").getD [] }
          | _ => .error (Errorf ("expected *corev1.ConfigMap found " ++ obji.typeName))

/-- Source lines 120-126: the cloud-provider config, when the descriptor names one. -/
def RenderBootstrap.cloudProviderConfig (env : Env) (infra : configv1.Infrastructure)
    (cloudConfigFile : String) (spec : ControllerConfigSpec) :
    Except GoError ControllerConfigSpec :=
  if infra.Spec.CloudConfig.Name ≠ "" then
    match loadBootstrapCloudProviderConfig env infra cloudConfigFile with
    | .error err => .error (Errorf ("failed to load the cloud provider config: " ++ err.msg))
    | .ok cloudConf => .ok { spec with CloudProviderConfig := cloudConf }
  else .ok spec

/-- Source lines 128-154: the root CA bundle and the remaining assignments to the spec. -/
def RenderBootstrap.completeSpec (a : Args) (filesData : FilesData)
    (spec : ControllerConfigSpec) : ControllerConfigSpec :=
  let bundle : Bytes := []
  let bundle := bundle ++ mapIndex filesData a.rootCAFile
  -- if _, ok := filesData[kubeAPIServerServingCA]; ok
  let (bundle, spec) :=
    match mapLookup filesData a.kubeAPIServerServingCA with
    | some _ =>
      (bundle ++ mapIndex filesData a.kubeAPIServerServingCA,
        { spec with KubeAPIServerServingCAData := mapIndex filesData a.kubeAPIServerServingCA })
    | none => (bundle, spec)
  -- if data, ok := filesData[cloudProviderCAFile]; ok
  let spec :=
    match mapLookup filesData a.cloudProviderCAFile with
    | some data => { spec with CloudProviderCAData := data }
    | none => spec
  { spec with
    RootCAData := bundle
    PullSecret := none
    OSImageURL := a.imgs.MachineOSContent
    ReleaseImage := a.releaseImage
    Images :=
      [ (.MachineConfigOperatorKey, a.imgs.MachineConfigOperator),
        (.APIServerWatcherKey, a.imgs.MachineConfigOperator),
        (.InfraImageKey, a.imgs.InfraImage),
        (.KeepalivedKey, a.imgs.Keepalived),
        (.CorednsKey, a.imgs.Coredns),
        (.MdnsPublisherKey, a.imgs.MdnsPublisher),
        (.HaproxyKey, a.imgs.Haproxy),
        (.BaremetalRuntimeCfgKey, a.imgs.BaremetalRuntimeCfg) ] }

/-- What `RenderBootstrap` holds on source line 156, before it plans the manifests. -/
structure Prepared where
  filesData : FilesData
  infra : configv1.Infrastructure
  spec : ControllerConfigSpec
  config : renderConfig

/-- Source lines 37-156 of `RenderBootstrap`: load, decode, build the spec and the
render configuration. -/
def RenderBootstrap.prepare (env : Env) (a : Args) : Except GoError Prepared :=
  match RenderBootstrap.readFiles env (RenderBootstrap.files a) [] with
  | .error err => .error err
  | .ok filesData =>
  match RenderBootstrap.decodeInfrastructure env (mapIndex filesData a.infraFile) with
  | .error err => .error err
  | .ok infra =>
  match RenderBootstrap.decodeProxy env (mapIndex filesData a.proxyFile) with
  | .error err => .error err
  | .ok proxy =>
  match RenderBootstrap.decodeNetwork env (mapIndex filesData a.networkFile) with
  | .error err => .error err
  | .ok network =>
  match RenderBootstrap.decodeDNS env (mapIndex filesData a.dnsFile) with
  | .error err => .error err
  | .ok dns =>
  match env.createDiscoveredControllerConfigSpec infra network proxy dns with
  | .error err => .error err
  | .ok spec =>
  match RenderBootstrap.additionalTrustBundle env a.additionalTrustBundleFile spec with
  | .error err => .error err
  | .ok spec =>
  match RenderBootstrap.cloudProviderConfig env infra a.cloudConfigFile spec with
  | .error err => .error err
  | .ok spec =>
    let spec := RenderBootstrap.completeSpec a filesData spec
    let config :=
      getRenderConfig "" (mapIndex filesData a.kubeAPIServerServingCA) spec
        a.imgs.RenderConfigImages infra.Status.APIServerInternalURL
    .ok { filesData := filesData, infra := infra, spec := spec, config := config }

/-- The slice `manifests` of source lines 158-180: the baseline list. -/
def RenderBootstrap.manifests (a : Args) (filesData : FilesData) : List manifest :=
  [ { name := "manifests/machineconfigcontroller/controllerconfig.yaml", data := []
      filename := "bootstrap/manifests/machineconfigcontroller-controllerconfig.yaml" },
    { name := "manifests/master.machineconfigpool.yaml", data := []
      filename := "bootstrap/manifests/master.machineconfigpool.yaml" },
    { name := "manifests/worker.machineconfigpool.yaml", data := []
      filename := "bootstrap/manifests/worker.machineconfigpool.yaml" },
    { name := "manifests/bootstrap-pod-v2.yaml", data := []
      filename := "bootstrap/machineconfigoperator-bootstrap-pod.yaml" },
    { name := "", data := mapIndex filesData a.pullSecretFile
      filename := "bootstrap/manifests/machineconfigcontroller-pull-secret" },
    { name := "manifests/machineconfigserver/csr-bootstrap-role-binding.yaml", data := []
      filename := "manifests/csr-bootstrap-role-binding.yaml" },
    { name := "manifests/machineconfigserver/kube-apiserver-serving-ca-configmap.yaml"
      data := []
      filename := "manifests/kube-apiserver-serving-ca-configmap.yaml" } ]

/-- How a call of `RenderBootstrap` ends. -/
inductive Outcome where
  | returned (err : Option GoError)
  | panicked (p : Panic)
deriving DecidableEq, Repr

/-- The switch of source lines 185-198 for one entry: the bytes to write, `none` for
an entry that the loop skips, or the error of the renderer. -/
def RenderBootstrap.manifestBytes (env : Env) (config : renderConfig) (m : manifest) :
    Except GoError (Option Bytes) :=
  if m.name.length > 0 then
    match env.renderAsset config m.name with
    | .error err => .error err
    | .ok b => .ok (some b)
  else if m.data.length > 0 then
    .ok (some m.data)
  else
    .ok none

/-- Source lines 200-207 for one entry with bytes `b`, after the effects `ops`: the
effects performed and the error returned, if any. -/
def RenderBootstrap.writeManifest (env : Env) (destinationDir : String) (m : manifest)
    (b : Bytes) (ops : List FsOp) : List FsOp × Option GoError :=
  let path := env.Join destinationDir m.filename
  let dirname := env.Dir path
  match env.MkdirAll ops dirname 0o655 with
  | some err => (ops ++ [.MkdirAll dirname 0o655], some err)
  | none =>
    let ops := ops ++ [.MkdirAll dirname 0o655]
    match env.WriteFile ops path b 0o644 with
    | some err => (ops ++ [.WriteFile path b 0o644], some err)
    | none => (ops ++ [.WriteFile path b 0o644], none)

/-- The loop of source lines 184-209 over the planned list, started after the effects
`ops`; it yields the effects performed and the error it returns, if any. -/
def RenderBootstrap.writeManifests (env : Env) (config : renderConfig) (destinationDir : String) :
    List manifest → List FsOp → List FsOp × Option GoError
  | [], ops => (ops, none)
  | m :: rest, ops =>
    match RenderBootstrap.manifestBytes env config m with
    | .error err => (ops, some err)
    | .ok none => RenderBootstrap.writeManifests env config destinationDir rest ops
    | .ok (some b) =>
      match RenderBootstrap.writeManifest env destinationDir m b ops with
      | (ops, some err) => (ops, some err)
      | (ops, none) => RenderBootstrap.writeManifests env config destinationDir rest ops

/-- The function `RenderBootstrap` (source lines 27-210): the effects on the file
system, in order, and how the call ends. -/
def RenderBootstrap (env : Env) (a : Args) : List FsOp × Outcome :=
  match RenderBootstrap.prepare env a with
  | .error err => ([], .returned (some err))
  | .ok p =>
    match appendManifestsByPlatform (RenderBootstrap.manifests a p.filesData) p.infra with
    | .error panic => ([], .panicked panic)
    | .ok manifests =>
      match RenderBootstrap.writeManifests env p.config a.destinationDir manifests [] with
      | (ops, err) => (ops, .returned err)

/-! ## Vocabulary of the statements -/

/-- Whether the destination `path` starts with the directory prefix `dir`, such as
"vsphere/". -/
def underDir (dir path : String) : Bool :=
  dir.data.isPrefixOf path.data

/-- The four on-prem entries with destinations under `baremetal/`. -/
def baremetalManifests : List manifest :=
  [ { name := "manifests/on-prem/coredns.yaml", data := []
      filename := "baremetal/manifests/coredns.yaml" },
    { name := "manifests/on-prem/coredns-corefile.tmpl", data := []
      filename := "baremetal/static-pod-resources/coredns/Corefile.tmpl" },
    { name := "manifests/on-prem/keepalived.yaml", data := []
      filename := "baremetal/manifests/keepalived.yaml" },
    { name := "manifests/on-prem/keepalived.conf.tmpl", data := []
      filename := "baremetal/static-pod-resources/keepalived/keepalived.conf.tmpl" } ]

/-- The four on-prem entries with destinations under `openstack/`. -/
def openstackManifests : List manifest :=
  [ { name := "manifests/on-prem/coredns.yaml", data := []
      filename := "openstack/manifests/coredns.yaml" },
    { name := "manifests/on-prem/coredns-corefile.tmpl", data := []
      filename := "openstack/static-pod-resources/coredns/Corefile.tmpl" },
    { name := "manifests/on-prem/keepalived.yaml", data := []
      filename := "openstack/manifests/keepalived.yaml" },
    { name := "manifests/on-prem/keepalived.conf.tmpl", data := []
      filename := "openstack/static-pod-resources/keepalived/keepalived.conf.tmpl" } ]

/-- The four on-prem entries with destinations under `ovirt/`. -/
def ovirtManifests : List manifest :=
  [ { name := "manifests/on-prem/coredns.yaml", data := []
      filename := "ovirt/manifests/coredns.yaml" },
    { name := "manifests/on-prem/coredns-corefile.tmpl", data := []
      filename := "ovirt/static-pod-resources/coredns/Corefile.tmpl" },
    { name := "manifests/on-prem/keepalived.yaml", data := []
      filename := "ovirt/manifests/keepalived.yaml" },
    { name := "manifests/on-prem/keepalived.conf.tmpl", data := []
      filename := "ovirt/static-pod-resources/keepalived/keepalived.conf.tmpl" } ]

/-- The four on-prem entries with destinations under `kubevirt/`. -/
def kubevirtManifests : List manifest :=
  [ { name := "manifests/on-prem/coredns.yaml", data := []
      filename := "kubevirt/manifests/coredns.yaml" },
    { name := "manifests/on-prem/coredns-corefile.tmpl", data := []
      filename := "kubevirt/static-pod-resources/coredns/Corefile.tmpl" },
    { name := "manifests/on-prem/keepalived.yaml", data := []
      filename := "kubevirt/manifests/keepalived.yaml" },
    { name := "manifests/on-prem/keepalived.conf.tmpl", data := []
      filename := "kubevirt/static-pod-resources/keepalived/keepalived.conf.tmpl" } ]

/-- The four on-prem entries with destinations under `vsphere/`. -/
def vsphereManifests : List manifest :=
  [ { name := "manifests/on-prem/coredns.yaml", data := []
      filename := "vsphere/manifests/coredns.yaml" },
    { name := "manifests/on-prem/coredns-corefile.tmpl", data := []
      filename := "vsphere/static-pod-resources/coredns/Corefile.tmpl" },
    { name := "manifests/on-prem/keepalived.yaml", data := []
      filename := "vsphere/manifests/keepalived.yaml" },
    { name := "manifests/on-prem/keepalived.conf.tmpl", data := []
      filename := "vsphere/static-pod-resources/keepalived/keepalived.conf.tmpl" } ]

/-- Whether one of the five recognized platform statuses of a descriptor is populated;
a descriptor without a status block has none populated. -/
def anyPlatformPopulated (infra : configv1.Infrastructure) : Bool :=
  match infra.Status.PlatformStatus with
  | none => false
  | some platformStatus =>
    platformStatus.BareMetal.isSome || platformStatus.OpenStack.isSome ||
      platformStatus.Ovirt.isSome || platformStatus.Kubevirt.isSome ||
      platformStatus.VSphere.isSome

/-- Whether the VSphere test of source line 298 passes on a status block. -/
def vsphereQualifies (platformStatus : configv1.PlatformStatus) : Bool :=
  match platformStatus.VSphere with
  | some vsphere => decide (vsphere.APIServerInternalIP ≠ "")
  | none => false

/-- The extension set of a status block: the groups of the platforms that qualify, in
the order in which the resolver tests them. -/
def platformExtension (platformStatus : configv1.PlatformStatus) : List manifest :=
  (if platformStatus.BareMetal ≠ none then baremetalManifests else []) ++
  (if platformStatus.OpenStack ≠ none then openstackManifests else []) ++
  (if platformStatus.Ovirt ≠ none then ovirtManifests else []) ++
  (if platformStatus.Kubevirt ≠ none then kubevirtManifests else []) ++
  (if vsphereQualifies platformStatus then vsphereManifests else [])

/-- The write that the writer loop is specified to perform for one entry: to
`destinationDir` joined with the filename, the rendered template when the name is
non-empty, the literal data when only the data is non-empty, and none otherwise (nor
when the renderer fails). -/
def expectedWrite (env : Env) (config : renderConfig) (destinationDir : String) (m : manifest) :
    Option (String × Bytes) :=
  if m.name ≠ "" then
    match env.renderAsset config m.name with
    | .ok rendered => some (env.Join destinationDir m.filename, rendered)
    | .error _ => none
  else if m.data ≠ [] then some (env.Join destinationDir m.filename, m.data)
  else none

/-- The effects of an expected write: the parent directory is created, then the file
is written. -/
def expectedOps (env : Env) (config : renderConfig) (destinationDir : String) (m : manifest) :
    List FsOp :=
  match expectedWrite env config destinationDir m with
  | some (path, b) => [.MkdirAll (env.Dir path) 0o655, .WriteFile path b 0o644]
  | none => []

/-- The file writes among the effects, in order: path and contents. -/
def writesOf (ops : List FsOp) : List (String × Bytes) :=
  ops.filterMap fun op =>
    match op with
    | .WriteFile path data _ => some (path, data)
    | .MkdirAll _ _ => none

/-- The pull-secret entry of the baseline list, with the given literal data. -/
def pullSecretManifest (data : Bytes) : manifest :=
  { name := "", data := data, filename := "bootstrap/manifests/machineconfigcontroller-pull-secret" }

/-! ## Sample inputs -/

/-- A status block with no platform populated. -/
def noPlatform : configv1.PlatformStatus :=
  { BareMetal := none, OpenStack := none, Ovirt := none, Kubevirt := none, VSphere := none }

/-- A descriptor with the given status block, naming no cloud-provider config. -/
def infraWith (platformStatus : Option configv1.PlatformStatus) : configv1.Infrastructure :=
  { Spec := { CloudConfig := { Name := "", Key := "" } }
    Status := { PlatformStatus := platformStatus, APIServerInternalURL := "https://api-int:6443" } }

/-- A bare-metal descriptor. -/
def infraBareMetal : configv1.Infrastructure :=
  infraWith (some { noPlatform with BareMetal := some { APIServerInternalIP := "10.0.0.5" } })

/-- A descriptor with both the BareMetal and the OpenStack status populated. -/
def infraBareMetalOpenStack : configv1.Infrastructure :=
  infraWith (some { noPlatform with
    BareMetal := some { APIServerInternalIP := "10.0.0.5" }
    OpenStack := some { APIServerInternalIP := "10.0.0.6" } })

/-- A vSphere descriptor with an empty API-server-internal endpoint. -/
def infraVSphereNoEndpoint : configv1.Infrastructure :=
  infraWith (some { noPlatform with VSphere := some { APIServerInternalIP := "" } })

/-- A vSphere descriptor with an API-server-internal endpoint. -/
def infraVSphere : configv1.Infrastructure :=
  infraWith (some { noPlatform with VSphere := some { APIServerInternalIP := "10.0.0.7" } })

/-- A descriptor whose status block is there with no recognized platform populated. -/
def infraNoPlatform : configv1.Infrastructure :=
  infraWith (some noPlatform)

/-- A descriptor without a status block: `Status.PlatformStatus` is nil. -/
def infraNoPlatformStatus : configv1.Infrastructure :=
  infraWith none

/-- The image-reference table of the sample runs. -/
def sampleImages : Images :=
  { RenderConfigImages := { MachineConfigOperator := "quay.io/mco" }
    MachineOSContent := "quay.io/os"
    MachineConfigOperator := "quay.io/mco"
    InfraImage := "quay.io/pod"
    Keepalived := "quay.io/keepalived"
    Coredns := "quay.io/coredns"
    MdnsPublisher := "quay.io/mdns"
    Haproxy := "quay.io/haproxy"
    BaremetalRuntimeCfg := "quay.io/runtimecfg" }

/-- The arguments of the sample runs: every optional input is supplied. -/
def sampleArgs : Args :=
  { additionalTrustBundleFile := "trust"
    proxyFile := "proxy"
    clusterConfigConfigMapFile := "cluster-config"
    infraFile := "infra"
    networkFile := "network"
    dnsFile := "dns"
    cloudConfigFile := "cloud-config"
    cloudProviderCAFile := "cloud-ca"
    rootCAFile := "root-ca"
    kubeAPIServerServingCA := "kube-ca"
    pullSecretFile := "pull-secret"
    imgs := sampleImages
    destinationDir := "out"
    releaseImage := "quay.io/release" }

/-- A descriptor that names a cloud-provider config source, with the key `config`. -/
def infraCloudConfig : configv1.Infrastructure :=
  { Spec := { CloudConfig := { Name := "cloud-provider-config", Key := "config" } }
    Status := { PlatformStatus := some noPlatform, APIServerInternalURL := "https://api-int:6443" } }

/-- A config map with the single entry `key`. -/
def configMapOf (key : String) (value : Bytes) : corev1.ConfigMap :=
  { Data := fun k => if k = key then some value else none }

/-- A config map with the entries `cloud.conf` and `config`. -/
def configMapBoth : corev1.ConfigMap :=
  { Data := fun k => if k = "cloud.conf" then some [41] else if k = "config" then some [40] else none }

/-- The file system of the sample runs. -/
def sampleFiles (path : String) : FileState :=
  if path = "infra" then .present [1]
  else if path = "proxy" then .present [2]
  else if path = "network" then .present [3]
  else if path = "dns" then .present [4]
  else if path = "trust" then .present [5]
  else if path = "cloud-config" then .present [6]
  else if path = "cloud-config-both" then .present [7]
  else if path = "cluster-config" then .present [8]
  else if path = "root-ca" then .present [10, 11]
  else if path = "kube-ca" then .present [12]
  else if path = "cloud-ca" then .present [13]
  else if path = "pull-secret" then .present [20, 21]
  else if path = "empty" then .present []
  else .absent

/-- What the discover step of the sample runs returns: it sets a pull-secret reference
and leaves the fields that `RenderBootstrap` assigns empty. -/
def sampleDiscovered : ControllerConfigSpec :=
  { Discovered := "discovered"
    CloudProviderConfig := []
    AdditionalTrustBundle := []
    KubeAPIServerServingCAData := []
    CloudProviderCAData := []
    RootCAData := []
    PullSecret := some { Namespace := "openshift-config", Name := "pull-secret" }
    OSImageURL := ""
    ReleaseImage := ""
    Images := [] }

/-- A render configuration for the sample writer loop. -/
def sampleConfig : renderConfig :=
  getRenderConfig "" [12] sampleDiscovered sampleImages.RenderConfigImages "https://api-int:6443"

/-- A planned list for the sample writer loop: the baseline with an empty pull secret
(an entry with neither a name nor data), followed by a pull-secret entry with data. -/
def sampleManifests : List manifest :=
  RenderBootstrap.manifests sampleArgs [] ++ [pullSecretManifest [20, 21]]

/-- The environment of the sample runs: the infrastructure payload decodes to `infra`,
the discover step fills every field it can, the renderer and the file system never
fail. -/
def sampleEnv (infra : configv1.Infrastructure) : Env :=
  { files := sampleFiles
    decodeConfig := fun payload =>
      if payload = [1] then .ok (.Infrastructure infra)
      else if payload = [2] then .ok (.Proxy { Name := "cluster" })
      else if payload = [3] then .ok (.Network { Name := "cluster" })
      else if payload = [4] then .ok (.DNS { Name := "cluster" })
      else .error (Errorf "no kind is registered")
    decodeCore := fun payload =>
      if payload = [5] then .ok (.ConfigMap (configMapOf "ca-bundle.crt" [30, 31]))
      else if payload = [6] then .ok (.ConfigMap (configMapOf "config" [40]))
      else if payload = [7] then .ok (.ConfigMap configMapBoth)
      else .error (Errorf "no kind is registered")
    createDiscoveredControllerConfigSpec := fun _ _ _ _ => .ok sampleDiscovered
    renderAsset := fun _ name => .ok [Fin.ofNat name.length]
    Join := fun dir file => dir ++ "/" ++ file
    Dir := fun path => String.mk ((path.data.reverse.dropWhile (fun c => c ≠ '/')).drop 1).reverse
    MkdirAll := fun _ _ _ => none
    WriteFile := fun _ _ _ _ => none }

/-! ## The platform resolver: lemmas -/

/-- With a status block, the resolver appends the extension set of the block. -/
theorem appendManifestsByPlatform_eq (manifests : List manifest) (infra : configv1.Infrastructure)
    (platformStatus : configv1.PlatformStatus)
    (h : infra.Status.PlatformStatus = some platformStatus) :
    appendManifestsByPlatform manifests infra = .ok (manifests ++ platformExtension platformStatus) := by
  unfold appendManifestsByPlatform
  rw [h]
  simp only [platformExtension, vsphereQualifies, baremetalManifests, openstackManifests,
    ovirtManifests, kubevirtManifests, vsphereManifests]
  congr 1
  split_ifs <;> simp [List.append_assoc]

/-- No baseline entry has its destination under a platform directory. -/
theorem baseline_not_under_platform (a : Args) (filesData : FilesData) (m : manifest)
    (hm : m ∈ RenderBootstrap.manifests a filesData) :
    underDir "baremetal/" m.filename = false ∧ underDir "openstack/" m.filename = false ∧
      underDir "ovirt/" m.filename = false ∧ underDir "kubevirt/" m.filename = false ∧
      underDir "vsphere/" m.filename = false := by
  simp only [RenderBootstrap.manifests, List.mem_cons, List.mem_singleton, List.not_mem_nil,
    or_false] at hm
  rcases hm with rfl | rfl | rfl | rfl | rfl | rfl | rfl <;> exact ⟨rfl, rfl, rfl, rfl, rfl⟩

/-- The bare-metal group lies under `baremetal/` and under no other platform directory. -/
theorem baremetalManifests_dirs :
    ∀ m ∈ baremetalManifests,
      underDir "baremetal/" m.filename = true ∧ underDir "openstack/" m.filename = false ∧
      underDir "ovirt/" m.filename = false ∧ underDir "kubevirt/" m.filename = false ∧
      underDir "vsphere/" m.filename = false := by
  decide

/-- None of the groups before the vSphere one has a destination under `vsphere/`. -/
theorem other_groups_not_under_vsphere :
    ∀ m ∈ baremetalManifests ++ openstackManifests ++ ovirtManifests ++ kubevirtManifests,
      underDir "vsphere/" m.filename = false := by
  decide

/-- The extension set of a block on which the vSphere test fails has no destination
under `vsphere/`. -/
theorem platformExtension_not_under_vsphere (platformStatus : configv1.PlatformStatus)
    (h : vsphereQualifies platformStatus = false) (m : manifest)
    (hm : m ∈ platformExtension platformStatus) : underDir "vsphere/" m.filename = false := by
  apply other_groups_not_under_vsphere
  simp only [platformExtension, h, List.mem_append] at hm
  simp only [List.mem_append]
  rcases hm with (((hm | hm) | hm) | hm) | hm
  · split_ifs at hm
    · exact Or.inl (Or.inl (Or.inl hm))
    · simp at hm
  · split_ifs at hm
    · exact Or.inl (Or.inl (Or.inr hm))
    · simp at hm
  · split_ifs at hm
    · exact Or.inl (Or.inr hm)
    · simp at hm
  · split_ifs at hm
    · exact Or.inr hm
    · simp at hm
  · simp at hm

/-! ## The platform resolver: properties -/

/-- C4, as stated, fails: with both the BareMetal and the OpenStack status populated
the resolver adds the OpenStack group after the bare-metal one, so that the additions
are not exactly the four bare-metal entries and the planned list has an entry under
`openstack/`. -/
theorem bareMetal_populated_with_openStack :
    infraBareMetalOpenStack.Status.PlatformStatus.bind (·.BareMetal) ≠ none ∧
    ∃ planned,
      appendManifestsByPlatform (RenderBootstrap.manifests sampleArgs []) infraBareMetalOpenStack
        = .ok planned ∧
      planned ≠ RenderBootstrap.manifests sampleArgs [] ++ baremetalManifests ∧
      ∃ m ∈ planned, underDir "openstack/" m.filename = true := by
  refine ⟨by decide, _, rfl, by decide, ?_⟩
  exact ⟨{ name := "manifests/on-prem/coredns.yaml", data := []
           filename := "openstack/manifests/coredns.yaml" }, by decide, rfl⟩

/-- C4, amended: for every descriptor whose BareMetal status is populated and on which
no other platform test passes (OpenStack, Ovirt and Kubevirt nil, VSphere nil or with an
empty endpoint), the resolver appends to its input exactly the four on-prem entries
under `baremetal/`; the list planned from the baseline is then the baseline followed by
these four, and none of its destinations lies under `openstack/`, `ovirt/`,
`kubevirt/` or `vsphere/`. -/
theorem bareMetal_only_appends_baremetal_group (infra : configv1.Infrastructure)
    (platformStatus : configv1.PlatformStatus)
    (hps : infra.Status.PlatformStatus = some platformStatus)
    (hbm : platformStatus.BareMetal ≠ none)
    (hos : platformStatus.OpenStack = none) (hov : platformStatus.Ovirt = none)
    (hkv : platformStatus.Kubevirt = none)
    (hvs : ∀ vsphere, platformStatus.VSphere = some vsphere → vsphere.APIServerInternalIP = "") :
    (∀ manifests, appendManifestsByPlatform manifests infra = .ok (manifests ++ baremetalManifests)) ∧
    (∀ m ∈ baremetalManifests, underDir "baremetal/" m.filename = true) ∧
    ∀ (a : Args) (filesData : FilesData),
      appendManifestsByPlatform (RenderBootstrap.manifests a filesData) infra
        = .ok (RenderBootstrap.manifests a filesData ++ baremetalManifests) ∧
      ∀ m ∈ RenderBootstrap.manifests a filesData ++ baremetalManifests,
        underDir "openstack/" m.filename = false ∧ underDir "ovirt/" m.filename = false ∧
        underDir "kubevirt/" m.filename = false ∧ underDir "vsphere/" m.filename = false := by
  have hq : vsphereQualifies platformStatus = false := by
    unfold vsphereQualifies
    cases hv : platformStatus.VSphere with
    | none => rfl
    | some vsphere => simp [hvs vsphere hv]
  have hext : platformExtension platformStatus = baremetalManifests := by
    simp [platformExtension, hbm, hos, hov, hkv, hq]
  have key : ∀ manifests,
      appendManifestsByPlatform manifests infra = .ok (manifests ++ baremetalManifests) := by
    intro manifests
    rw [appendManifestsByPlatform_eq manifests infra platformStatus hps, hext]
  refine ⟨key, fun m hm => (baremetalManifests_dirs m hm).1, fun a filesData => ⟨key _, ?_⟩⟩
  intro m hm
  rcases List.mem_append.1 hm with hm | hm
  · exact (baseline_not_under_platform a filesData m hm).2
  · exact (baremetalManifests_dirs m hm).2

/-- Witness of C4, amended: the bare-metal sample descriptor, planned from the baseline
of the sample arguments. -/
theorem bareMetal_only_appends_baremetal_group_witness :
    appendManifestsByPlatform (RenderBootstrap.manifests sampleArgs []) infraBareMetal
      = .ok (RenderBootstrap.manifests sampleArgs [] ++ baremetalManifests) :=
  ((bareMetal_only_appends_baremetal_group infraBareMetal
    { noPlatform with BareMetal := some { APIServerInternalIP := "10.0.0.5" } }
    rfl (by decide) rfl rfl rfl (by decide)).2.2 sampleArgs []).1

/-- C5: for every descriptor whose VSphere status is populated, (1) when its
`APIServerInternalIP` is empty the resolver returns a list in which every entry with a
destination under `vsphere/` was already in its input, and the list planned from the
baseline has no such entry at all; (2) when the endpoint is non-empty the returned list
ends with the four `vsphere/` entries, appended after the input and the groups of the
other platforms. -/
theorem vsphere_endpoint_gate (infra : configv1.Infrastructure)
    (platformStatus : configv1.PlatformStatus) (vsphere : configv1.VSpherePlatformStatus)
    (hps : infra.Status.PlatformStatus = some platformStatus)
    (hvs : platformStatus.VSphere = some vsphere) :
    (vsphere.APIServerInternalIP = "" →
      (∀ manifests, ∃ planned, appendManifestsByPlatform manifests infra = .ok planned ∧
        ∀ m ∈ planned, underDir "vsphere/" m.filename = true → m ∈ manifests) ∧
      ∀ (a : Args) (filesData : FilesData), ∃ planned,
        appendManifestsByPlatform (RenderBootstrap.manifests a filesData) infra = .ok planned ∧
        ∀ m ∈ planned, underDir "vsphere/" m.filename = false) ∧
    (vsphere.APIServerInternalIP ≠ "" →
      ∀ manifests, ∃ others,
        appendManifestsByPlatform manifests infra
          = .ok (manifests ++ others ++ vsphereManifests) ∧
        ∀ m ∈ others, underDir "vsphere/" m.filename = false) := by
  constructor
  · intro hip
    have hq : vsphereQualifies platformStatus = false := by
      simp [vsphereQualifies, hvs, hip]
    constructor
    · intro manifests
      refine ⟨_, appendManifestsByPlatform_eq manifests infra platformStatus hps, ?_⟩
      intro m hm hdir
      rcases List.mem_append.1 hm with hm | hm
      · exact hm
      · rw [platformExtension_not_under_vsphere platformStatus hq m hm] at hdir
        exact absurd hdir (by decide)
    · intro a filesData
      refine ⟨_, appendManifestsByPlatform_eq _ infra platformStatus hps, ?_⟩
      intro m hm
      rcases List.mem_append.1 hm with hm | hm
      · exact (baseline_not_under_platform a filesData m hm).2.2.2.2
      · exact platformExtension_not_under_vsphere platformStatus hq m hm
  · intro hip manifests
    have hq : vsphereQualifies platformStatus = true := by
      simp [vsphereQualifies, hvs, hip]
    refine ⟨(if platformStatus.BareMetal ≠ none then baremetalManifests else []) ++
      (if platformStatus.OpenStack ≠ none then openstackManifests else []) ++
      (if platformStatus.Ovirt ≠ none then ovirtManifests else []) ++
      (if platformStatus.Kubevirt ≠ none then kubevirtManifests else []), ?_, ?_⟩
    · rw [appendManifestsByPlatform_eq manifests infra platformStatus hps]
      simp [platformExtension, hq, List.append_assoc]
    · intro m hm
      apply other_groups_not_under_vsphere
      simp only [List.mem_append] at hm ⊢
      rcases hm with ((hm | hm) | hm) | hm
      · split_ifs at hm
        · exact Or.inl (Or.inl (Or.inl hm))
        · simp at hm
      · split_ifs at hm
        · exact Or.inl (Or.inl (Or.inr hm))
        · simp at hm
      · split_ifs at hm
        · exact Or.inl (Or.inr hm)
        · simp at hm
      · split_ifs at hm
        · exact Or.inr hm
        · simp at hm

/-- Witness of C5: a vSphere descriptor without an endpoint plans the baseline alone,
and one with an endpoint plans the baseline followed by the four `vsphere/` entries. -/
theorem vsphere_endpoint_gate_witness :
    (∃ planned,
      appendManifestsByPlatform (RenderBootstrap.manifests sampleArgs []) infraVSphereNoEndpoint
        = .ok planned ∧
      ∀ m ∈ planned, underDir "vsphere/" m.filename = false) ∧
    ∃ others,
      appendManifestsByPlatform (RenderBootstrap.manifests sampleArgs []) infraVSphere
        = .ok (RenderBootstrap.manifests sampleArgs [] ++ others ++ vsphereManifests) ∧
      ∀ m ∈ others, underDir "vsphere/" m.filename = false :=
  ⟨((vsphere_endpoint_gate infraVSphereNoEndpoint
      { noPlatform with VSphere := some { APIServerInternalIP := "" } }
      { APIServerInternalIP := "" } rfl rfl).1 rfl).2 sampleArgs [],
   (vsphere_endpoint_gate infraVSphere
      { noPlatform with VSphere := some { APIServerInternalIP := "10.0.0.7" } }
      { APIServerInternalIP := "10.0.0.7" } rfl rfl).2 (by decide) _⟩

/-- With a status block in which none of the five recognized platform statuses is
populated, the resolver returns its input list unchanged; the list planned by
`RenderBootstrap` is then the baseline list, whose seven entries have the destinations
below, in this order. -/
theorem no_platform_plans_baseline (infra : configv1.Infrastructure)
    (platformStatus : configv1.PlatformStatus)
    (hps : infra.Status.PlatformStatus = some platformStatus)
    (hnone : anyPlatformPopulated infra = false) :
    (∀ manifests, appendManifestsByPlatform manifests infra = .ok manifests) ∧
    ∀ (a : Args) (filesData : FilesData),
      appendManifestsByPlatform (RenderBootstrap.manifests a filesData) infra
        = .ok (RenderBootstrap.manifests a filesData) ∧
      (RenderBootstrap.manifests a filesData).length = 7 ∧
      (RenderBootstrap.manifests a filesData).map (·.filename) =
        [ "bootstrap/manifests/machineconfigcontroller-controllerconfig.yaml",
          "bootstrap/manifests/master.machineconfigpool.yaml",
          "bootstrap/manifests/worker.machineconfigpool.yaml",
          "bootstrap/machineconfigoperator-bootstrap-pod.yaml",
          "bootstrap/manifests/machineconfigcontroller-pull-secret",
          "manifests/csr-bootstrap-role-binding.yaml",
          "manifests/kube-apiserver-serving-ca-configmap.yaml" ] := by
  unfold anyPlatformPopulated at hnone
  rw [hps] at hnone
  simp only [Bool.or_eq_false_iff] at hnone
  obtain ⟨⟨⟨⟨hbm, hos⟩, hov⟩, hkv⟩, hvs⟩ := hnone
  have isNone : ∀ {α : Type} (o : Option α), o.isSome = false → o = none := by
    intro α o ho
    cases o with
    | none => rfl
    | some v => simp at ho
  have hext : platformExtension platformStatus = [] := by
    simp [platformExtension, vsphereQualifies, isNone _ hbm, isNone _ hos, isNone _ hov,
      isNone _ hkv, isNone _ hvs]
  have key : ∀ manifests, appendManifestsByPlatform manifests infra = .ok manifests := by
    intro manifests
    rw [appendManifestsByPlatform_eq manifests infra platformStatus hps, hext,
      List.append_nil]
  exact ⟨key, fun a filesData => ⟨key _, rfl, rfl⟩⟩

/-- The sample descriptor with an empty status block plans the baseline list. -/
theorem no_platform_plans_baseline_sample :
    appendManifestsByPlatform (RenderBootstrap.manifests sampleArgs []) infraNoPlatform
      = .ok (RenderBootstrap.manifests sampleArgs []) ∧
    (RenderBootstrap.manifests sampleArgs []).length = 7 :=
  ⟨((no_platform_plans_baseline infraNoPlatform noPlatform rfl rfl).2 sampleArgs []).1,
   ((no_platform_plans_baseline infraNoPlatform noPlatform rfl rfl).2 sampleArgs []).2.1⟩

/-- C6, the code at the failing input: the descriptor without a status block has none
of the five recognized platform statuses populated, and the resolver does not return
the baseline list for it; the call ends in a panic, so that the sample run of
`RenderBootstrap` plans and writes nothing. -/
theorem no_platform_without_status_block :
    anyPlatformPopulated infraNoPlatformStatus = false ∧
    appendManifestsByPlatform (RenderBootstrap.manifests sampleArgs []) infraNoPlatformStatus
      ≠ .ok (RenderBootstrap.manifests sampleArgs []) ∧
    (∀ planned,
      appendManifestsByPlatform (RenderBootstrap.manifests sampleArgs []) infraNoPlatformStatus
        ≠ .ok planned) ∧
    (RenderBootstrap (sampleEnv infraNoPlatformStatus) sampleArgs).1 = [] ∧
    (RenderBootstrap (sampleEnv infraNoPlatformStatus) sampleArgs).2
      ≠ .returned none := by
  refine ⟨rfl, ?_, ?_, rfl, by decide⟩
  · intro h
    cases h
  · intro planned h
    cases h

/-- C7, the code at the failing input: on a descriptor whose `Status.PlatformStatus`
is nil the resolver does not return, its first test dereferences the nil pointer; the
sample run of `RenderBootstrap` on such a descriptor panics there, before any write. -/
theorem nil_platformStatus_panics :
    infraNoPlatformStatus.Status.PlatformStatus = none ∧
    appendManifestsByPlatform (RenderBootstrap.manifests sampleArgs []) infraNoPlatformStatus
      = .error .nilPointerDereference ∧
    RenderBootstrap (sampleEnv infraNoPlatformStatus) sampleArgs
      = ([], .panicked .nilPointerDereference) :=
  ⟨rfl, rfl, rfl⟩

/-! ## Reading files: lemmas -/

/-- A read without error found a file under a non-empty path and yields its bytes. -/
theorem ReadFile_ok (env : Env) (name : String) (data : Option Bytes)
    (h : ReadFile env name = (data, none)) :
    name ≠ "" ∧ ∃ bytes, env.files name = .present bytes ∧ data = some bytes := by
  unfold ReadFile at h
  split_ifs at h with hname
  · simp at h
  · refine ⟨hname, ?_⟩
    cases hfile : env.files name with
    | present bytes =>
      rw [hfile] at h
      simp only [Prod.mk.injEq, and_true] at h
      exact ⟨bytes, rfl, h.symm⟩
    | absent => rw [hfile] at h; simp at h
    | unreadable msg => rw [hfile] at h; simp at h

/-- Reading a file that is there, under a non-empty path. -/
theorem ReadFile_present (env : Env) (name : String) (bytes : Bytes) (hname : name ≠ "")
    (hfile : env.files name = .present bytes) : ReadFile env name = (some bytes, none) := by
  simp [ReadFile, hname, hfile]

/-- Reading a file that does not exist yields nil data and an error that
`os.IsNotExist` accepts. -/
theorem ReadFile_absent (env : Env) (name : String) (hfile : env.files name = .absent) :
    ∃ err, ReadFile env name = (none, some err) ∧ err.isNotExist = true := by
  unfold ReadFile
  split_ifs
  · exact ⟨_, rfl, rfl⟩
  · rw [hfile]
    exact ⟨_, rfl, rfl⟩

/-- Looking a key up after an assignment. -/
theorem mapLookup_mapAssign (m : FilesData) (k k' : String) (v : Bytes) :
    mapLookup (mapAssign m k v) k' = if k' = k then some v else mapLookup m k' := by
  by_cases h : k' = k
  · subst h
    simp [mapLookup, mapAssign, List.lookup]
  · have hb : (k' == k) = false := by simpa using h
    simp [mapLookup, mapAssign, List.lookup, hb, h]

/-- The loading loop leaves the keys it does not read as they were. -/
theorem readFiles_lookup_of_not_mem (env : Env) (files : List String) :
    ∀ (filesData result : FilesData), RenderBootstrap.readFiles env files filesData = .ok result →
      ∀ k, k ∉ files → mapLookup result k = mapLookup filesData k := by
  induction files with
  | nil =>
    intro filesData result h k _
    simp only [RenderBootstrap.readFiles, Except.ok.injEq] at h
    rw [h]
  | cons file rest ih =>
    intro filesData result h k hk
    rw [RenderBootstrap.readFiles] at h
    rcases hread : ReadFile env file with ⟨data, err⟩
    rw [hread] at h
    cases err with
    | some e => simp at h
    | none =>
      simp only at h
      rw [ih _ _ h k (fun hmem => hk (List.mem_cons_of_mem _ hmem))]
      have hne : k ≠ file := fun heq => hk (heq ▸ List.mem_cons_self _ _)
      rw [mapLookup_mapAssign, if_neg hne]

/-- When the loading loop succeeds, every path it read is non-empty, names a file that
is there, and is bound in the map to the bytes of that file. -/
theorem readFiles_lookup_of_mem (env : Env) (files : List String) :
    ∀ (filesData result : FilesData), RenderBootstrap.readFiles env files filesData = .ok result →
      ∀ k, k ∈ files →
        k ≠ "" ∧ ∃ bytes, env.files k = .present bytes ∧ mapLookup result k = some bytes := by
  induction files with
  | nil => intro _ _ _ k hk; simp at hk
  | cons file rest ih =>
    intro filesData result h k hk
    rw [RenderBootstrap.readFiles] at h
    rcases hread : ReadFile env file with ⟨data, err⟩
    rw [hread] at h
    cases err with
    | some e => simp at h
    | none =>
      simp only at h
      by_cases hrest : k ∈ rest
      · exact ih _ _ h k hrest
      · have hkf : k = file := by
          rcases List.mem_cons.1 hk with hkf | hkf
          · exact hkf
          · exact absurd hkf hrest
        obtain ⟨hname, bytes, hfile, hdata⟩ := ReadFile_ok env file data hread
        subst hkf
        refine ⟨hname, bytes, hfile, ?_⟩
        rw [readFiles_lookup_of_not_mem env rest _ _ h k hrest, hdata, mapLookup_mapAssign,
          if_pos rfl]
        rfl

/-- The empty path is never bound in the map of a successful load. -/
theorem readFiles_lookup_empty (env : Env) (files : List String) (result : FilesData)
    (h : RenderBootstrap.readFiles env files [] = .ok result) : mapLookup result "" = none := by
  by_cases hmem : "" ∈ files
  · exact absurd rfl (readFiles_lookup_of_mem env files [] result h "" hmem).1
  · rw [readFiles_lookup_of_not_mem env files [] result h "" hmem]
    rfl

/-- The stages of a call that reaches source line 156. -/
theorem prepare_ok (env : Env) (a : Args) (p : Prepared)
    (h : RenderBootstrap.prepare env a = .ok p) :
    ∃ infra proxy network dns discovered trusted configured,
      RenderBootstrap.readFiles env (RenderBootstrap.files a) [] = .ok p.filesData ∧
      RenderBootstrap.decodeInfrastructure env (mapIndex p.filesData a.infraFile) = .ok infra ∧
      RenderBootstrap.decodeProxy env (mapIndex p.filesData a.proxyFile) = .ok proxy ∧
      RenderBootstrap.decodeNetwork env (mapIndex p.filesData a.networkFile) = .ok network ∧
      RenderBootstrap.decodeDNS env (mapIndex p.filesData a.dnsFile) = .ok dns ∧
      env.createDiscoveredControllerConfigSpec infra network proxy dns = .ok discovered ∧
      RenderBootstrap.additionalTrustBundle env a.additionalTrustBundleFile discovered
        = .ok trusted ∧
      RenderBootstrap.cloudProviderConfig env infra a.cloudConfigFile trusted = .ok configured ∧
      p.infra = infra ∧
      p.spec = RenderBootstrap.completeSpec a p.filesData configured ∧
      p.config = getRenderConfig "" (mapIndex p.filesData a.kubeAPIServerServingCA) p.spec
        a.imgs.RenderConfigImages infra.Status.APIServerInternalURL := by
  unfold RenderBootstrap.prepare at h
  split at h
  · simp at h
  · rename_i filesData h1
    split at h
    · simp at h
    · rename_i infra h2
      split at h
      · simp at h
      · rename_i proxy h3
        split at h
        · simp at h
        · rename_i network h4
          split at h
          · simp at h
          · rename_i dns h5
            split at h
            · simp at h
            · rename_i discovered h6
              split at h
              · simp at h
              · rename_i trusted h7
                split at h
                · simp at h
                · rename_i configured h8
                  simp only [Except.ok.injEq] at h
                  subst h
                  exact ⟨infra, proxy, network, dns, discovered, trusted, configured,
                    h1, h2, h3, h4, h5, h6, h7, h8, rfl, rfl, rfl⟩

/-- The mandatory paths, the root CA and the pull secret among them, are always read. -/
theorem mandatory_mem_files (a : Args) :
    a.infraFile ∈ RenderBootstrap.files a ∧ a.rootCAFile ∈ RenderBootstrap.files a ∧
      a.pullSecretFile ∈ RenderBootstrap.files a := by
  unfold RenderBootstrap.files
  split_ifs <;> simp

/-- The serving-CA path is read exactly when it is non-empty. -/
theorem servingCA_mem_files (a : Args) (h : a.kubeAPIServerServingCA ≠ "") :
    a.kubeAPIServerServingCA ∈ RenderBootstrap.files a := by
  unfold RenderBootstrap.files
  split_ifs <;> simp

/-- The fields that source lines 128-154 leave alone or set outright. -/
theorem completeSpec_fields (a : Args) (filesData : FilesData) (spec : ControllerConfigSpec) :
    (RenderBootstrap.completeSpec a filesData spec).PullSecret = none ∧
    (RenderBootstrap.completeSpec a filesData spec).CloudProviderConfig
      = spec.CloudProviderConfig ∧
    (RenderBootstrap.completeSpec a filesData spec).AdditionalTrustBundle
      = spec.AdditionalTrustBundle := by
  unfold RenderBootstrap.completeSpec
  split <;> split <;> exact ⟨rfl, rfl, rfl⟩

/-- The root CA bundle when the serving-CA path is bound in the map. -/
theorem completeSpec_rootCA_some (a : Args) (filesData : FilesData) (spec : ControllerConfigSpec)
    (ca : Bytes) (h : mapLookup filesData a.kubeAPIServerServingCA = some ca) :
    (RenderBootstrap.completeSpec a filesData spec).RootCAData
      = mapIndex filesData a.rootCAFile ++ ca ∧
    (RenderBootstrap.completeSpec a filesData spec).KubeAPIServerServingCAData = ca := by
  unfold RenderBootstrap.completeSpec
  simp only [mapIndex, h, Option.getD_some, List.nil_append]
  split <;> simp

/-- The root CA bundle when the serving-CA path is not bound in the map. -/
theorem completeSpec_rootCA_none (a : Args) (filesData : FilesData) (spec : ControllerConfigSpec)
    (h : mapLookup filesData a.kubeAPIServerServingCA = none) :
    (RenderBootstrap.completeSpec a filesData spec).RootCAData
      = mapIndex filesData a.rootCAFile := by
  unfold RenderBootstrap.completeSpec
  simp only [h, List.nil_append]

/-! ## The spec builder: properties -/

/-- C1: in every run of `RenderBootstrap` that builds the spec, the root CA file was
read, and `RootCAData` is its bytes followed by the bytes of the serving-CA file when
the serving-CA path is non-empty (then `KubeAPIServerServingCAData` is the serving-CA
bytes), and its bytes alone when the path is empty.  Nothing is reordered or dropped,
also when the two payloads coincide. -/
theorem rootCAData_base_then_servingCA (env : Env) (a : Args) (p : Prepared)
    (h : RenderBootstrap.prepare env a = .ok p) :
    ∃ rootCA, env.files a.rootCAFile = .present rootCA ∧
      (a.kubeAPIServerServingCA ≠ "" →
        ∃ servingCA, env.files a.kubeAPIServerServingCA = .present servingCA ∧
          p.spec.RootCAData = rootCA ++ servingCA ∧
          p.spec.KubeAPIServerServingCAData = servingCA) ∧
      (a.kubeAPIServerServingCA = "" → p.spec.RootCAData = rootCA) := by
  obtain ⟨infra, proxy, network, dns, discovered, trusted, configured, hload, -, -, -, -, -, -,
    -, -, hspec, -⟩ := prepare_ok env a p h
  obtain ⟨-, rootCA, hrootFile, hrootLookup⟩ :=
    readFiles_lookup_of_mem env _ _ _ hload a.rootCAFile (mandatory_mem_files a).2.1
  have hrootIndex : mapIndex p.filesData a.rootCAFile = rootCA := by
    simp [mapIndex, hrootLookup]
  refine ⟨rootCA, hrootFile, ?_, ?_⟩
  · intro hca
    obtain ⟨-, servingCA, hcaFile, hcaLookup⟩ :=
      readFiles_lookup_of_mem env _ _ _ hload a.kubeAPIServerServingCA
        (servingCA_mem_files a hca)
    refine ⟨servingCA, hcaFile, ?_, ?_⟩
    · rw [hspec, (completeSpec_rootCA_some a p.filesData configured servingCA hcaLookup).1,
        hrootIndex]
    · rw [hspec, (completeSpec_rootCA_some a p.filesData configured servingCA hcaLookup).2]
  · intro hca
    have hnone : mapLookup p.filesData a.kubeAPIServerServingCA = none := by
      rw [hca]
      exact readFiles_lookup_empty env _ _ hload
    rw [hspec, completeSpec_rootCA_none a p.filesData configured hnone, hrootIndex]

/-- Witness of C1: the sample run with a serving CA, the one without, and the one whose
serving-CA path names the root CA file again (the bytes then occur twice). -/
theorem rootCAData_base_then_servingCA_witness :
    (∃ p, RenderBootstrap.prepare (sampleEnv infraNoPlatform) sampleArgs = .ok p ∧
      p.spec.RootCAData = [10, 11, 12] ∧
      ∃ rootCA, sampleFiles "root-ca" = .present rootCA ∧
        ∃ servingCA, sampleFiles "kube-ca" = .present servingCA ∧
          p.spec.RootCAData = rootCA ++ servingCA ∧
          p.spec.KubeAPIServerServingCAData = servingCA) ∧
    (∃ p, RenderBootstrap.prepare (sampleEnv infraNoPlatform)
        { sampleArgs with kubeAPIServerServingCA := "" } = .ok p ∧
      p.spec.RootCAData = [10, 11] ∧
      ∃ rootCA, sampleFiles "root-ca" = .present rootCA ∧ p.spec.RootCAData = rootCA) ∧
    ∃ p, RenderBootstrap.prepare (sampleEnv infraNoPlatform)
        { sampleArgs with kubeAPIServerServingCA := "root-ca" } = .ok p ∧
      p.spec.RootCAData = [10, 11, 10, 11] ∧
      ∃ rootCA, sampleFiles "root-ca" = .present rootCA ∧
        ∃ servingCA, sampleFiles "root-ca" = .present servingCA ∧
          p.spec.RootCAData = rootCA ++ servingCA ∧
          p.spec.KubeAPIServerServingCAData = servingCA :=
  ⟨⟨_, rfl, rfl,
      (rootCAData_base_then_servingCA (sampleEnv infraNoPlatform) sampleArgs _ rfl).imp
        (fun _ hx => ⟨hx.1, hx.2.1 (by decide)⟩)⟩,
    ⟨_, rfl, rfl,
      (rootCAData_base_then_servingCA (sampleEnv infraNoPlatform)
        { sampleArgs with kubeAPIServerServingCA := "" } _ rfl).imp
        (fun _ hx => ⟨hx.1, hx.2.2 rfl⟩)⟩,
    ⟨_, rfl, rfl,
      (rootCAData_base_then_servingCA (sampleEnv infraNoPlatform)
        { sampleArgs with kubeAPIServerServingCA := "root-ca" } _ rfl).imp
        (fun _ hx => ⟨hx.1, hx.2.1 (by decide)⟩)⟩⟩

/-- What `loadBootstrapCloudProviderConfig` returns on a file that is there and decodes
to a config map: the value under `cloud.conf`, else the value under the given key. -/
theorem loadBootstrapCloudProviderConfig_configMap (env : Env) (infra : configv1.Infrastructure)
    (cloudConfigFile : String) (data : Bytes) (cm : corev1.ConfigMap)
    (hpath : cloudConfigFile ≠ "") (hfile : env.files cloudConfigFile = .present data)
    (hdec : env.decodeCore data = .ok (.ConfigMap cm)) :
    loadBootstrapCloudProviderConfig env infra cloudConfigFile =
      .ok (match cm.Data "cloud.conf" with
        | some cloudConf => cloudConf
        | none => (cm.Data infra.Spec.CloudConfig.Key).getD []) := by
  unfold loadBootstrapCloudProviderConfig
  rw [ReadFile_present env cloudConfigFile data hpath hfile]
  simp only [Option.getD_some, hdec]
  cases cm.Data "cloud.conf" <;> rfl

/-- In a run that builds the spec for a descriptor naming a cloud-provider config source,
the loader succeeded and the spec carries what it returned. -/
theorem prepare_cloudProviderConfig (env : Env) (a : Args) (p : Prepared)
    (h : RenderBootstrap.prepare env a = .ok p) (hname : p.infra.Spec.CloudConfig.Name ≠ "") :
    loadBootstrapCloudProviderConfig env p.infra a.cloudConfigFile
      = .ok p.spec.CloudProviderConfig := by
  obtain ⟨infra, proxy, network, dns, discovered, trusted, configured, -, -, -, -, -, -, -,
    hcloud, hinfra, hspec, -⟩ := prepare_ok env a p h
  subst hinfra
  rw [hspec, (completeSpec_fields a p.filesData configured).2.1]
  unfold RenderBootstrap.cloudProviderConfig at hcloud
  rw [if_pos hname] at hcloud
  cases hl : loadBootstrapCloudProviderConfig env p.infra a.cloudConfigFile with
  | error err => rw [hl] at hcloud; simp at hcloud
  | ok cloudConf =>
    rw [hl] at hcloud
    simp only [Except.ok.injEq] at hcloud
    rw [← hcloud]

/-- C2: for every descriptor that names a cloud-provider config source and every
cloud-config file that decodes to a config map, (1) when the map lacks `cloud.conf` and
holds `Y` under the descriptor's key, `loadBootstrapCloudProviderConfig` returns `Y`
without error and every run of `RenderBootstrap` on this descriptor and file that
builds the spec has `CloudProviderConfig = Y`; (2) when the map holds `Z` under
`cloud.conf`, the same holds with `Z`, whatever the descriptor's key holds. -/
theorem cloudProviderConfig_key_fallback (env : Env) (infra : configv1.Infrastructure)
    (cloudConfigFile : String) (data : Bytes) (cm : corev1.ConfigMap)
    (hname : infra.Spec.CloudConfig.Name ≠ "")
    (hpath : cloudConfigFile ≠ "") (hfile : env.files cloudConfigFile = .present data)
    (hdec : env.decodeCore data = .ok (.ConfigMap cm)) :
    (∀ Y, cm.Data "cloud.conf" = none → cm.Data infra.Spec.CloudConfig.Key = some Y →
      loadBootstrapCloudProviderConfig env infra cloudConfigFile = .ok Y ∧
      ∀ (a : Args) (p : Prepared), a.cloudConfigFile = cloudConfigFile →
        RenderBootstrap.prepare env a = .ok p → p.infra = infra →
        p.spec.CloudProviderConfig = Y) ∧
    (∀ Z, cm.Data "cloud.conf" = some Z →
      loadBootstrapCloudProviderConfig env infra cloudConfigFile = .ok Z ∧
      ∀ (a : Args) (p : Prepared), a.cloudConfigFile = cloudConfigFile →
        RenderBootstrap.prepare env a = .ok p → p.infra = infra →
        p.spec.CloudProviderConfig = Z) := by
  have hload := loadBootstrapCloudProviderConfig_configMap env infra cloudConfigFile data cm
    hpath hfile hdec
  have run : ∀ V, loadBootstrapCloudProviderConfig env infra cloudConfigFile = .ok V →
      ∀ (a : Args) (p : Prepared), a.cloudConfigFile = cloudConfigFile →
        RenderBootstrap.prepare env a = .ok p → p.infra = infra →
        p.spec.CloudProviderConfig = V := by
    intro V hV a p hfileEq hprep hinfra
    have hrun := prepare_cloudProviderConfig env a p hprep (by rw [hinfra]; exact hname)
    rw [hinfra, hfileEq, hV] at hrun
    simp only [Except.ok.injEq] at hrun
    exact hrun.symm
  constructor
  · intro Y hconf hkey
    have hY : loadBootstrapCloudProviderConfig env infra cloudConfigFile = .ok Y := by
      rw [hload, hconf, hkey]
      rfl
    exact ⟨hY, run Y hY⟩
  · intro Z hconf
    have hZ : loadBootstrapCloudProviderConfig env infra cloudConfigFile = .ok Z := by
      rw [hload, hconf]
    exact ⟨hZ, run Z hZ⟩

/-- Witness of C2: the sample config map without `cloud.conf` yields the value under
the descriptor's key `config`, in the loader and in the spec of the sample run; the
sample config map with both keys yields the value under `cloud.conf`. -/
theorem cloudProviderConfig_key_fallback_witness :
    (loadBootstrapCloudProviderConfig (sampleEnv infraCloudConfig) infraCloudConfig "cloud-config"
        = .ok [40] ∧
      ∃ p, RenderBootstrap.prepare (sampleEnv infraCloudConfig) sampleArgs = .ok p ∧
        p.spec.CloudProviderConfig = [40]) ∧
    (loadBootstrapCloudProviderConfig (sampleEnv infraCloudConfig) infraCloudConfig
        "cloud-config-both" = .ok [41] ∧
      ∃ p, RenderBootstrap.prepare (sampleEnv infraCloudConfig)
          { sampleArgs with cloudConfigFile := "cloud-config-both" } = .ok p ∧
        p.spec.CloudProviderConfig = [41]) :=
  ⟨⟨((cloudProviderConfig_key_fallback (sampleEnv infraCloudConfig) infraCloudConfig
        "cloud-config" [6] (configMapOf "config" [40]) (by decide) (by decide) rfl rfl).1
        [40] rfl rfl).1,
      _, rfl,
      ((cloudProviderConfig_key_fallback (sampleEnv infraCloudConfig) infraCloudConfig
        "cloud-config" [6] (configMapOf "config" [40]) (by decide) (by decide) rfl rfl).1
        [40] rfl rfl).2 sampleArgs _ rfl rfl rfl⟩,
    ⟨((cloudProviderConfig_key_fallback (sampleEnv infraCloudConfig) infraCloudConfig
        "cloud-config-both" [7] configMapBoth (by decide) (by decide) rfl rfl).2
        [41] rfl).1,
      _, rfl,
      ((cloudProviderConfig_key_fallback (sampleEnv infraCloudConfig) infraCloudConfig
        "cloud-config-both" [7] configMapBoth (by decide) (by decide) rfl rfl).2
        [41] rfl).2 { sampleArgs with cloudConfigFile := "cloud-config-both" } _ rfl rfl rfl⟩⟩

/-- The trust-bundle stage on a file that does not exist: no error, the spec as it was. -/
theorem additionalTrustBundle_absent (env : Env) (additionalTrustBundleFile : String)
    (spec : ControllerConfigSpec) (hfile : env.files additionalTrustBundleFile = .absent) :
    RenderBootstrap.additionalTrustBundle env additionalTrustBundleFile spec = .ok spec := by
  obtain ⟨err, hread, hnx⟩ := ReadFile_absent env additionalTrustBundleFile hfile
  unfold RenderBootstrap.additionalTrustBundle
  rw [hread]
  simp [Option.filter, hnx]

/-- The trust-bundle stage on a file that is there and decodes to a config map. -/
theorem additionalTrustBundle_configMap (env : Env) (additionalTrustBundleFile : String)
    (spec : ControllerConfigSpec) (data : Bytes) (cm : corev1.ConfigMap)
    (hpath : additionalTrustBundleFile ≠ "")
    (hfile : env.files additionalTrustBundleFile = .present data)
    (hdec : env.decodeCore data = .ok (.ConfigMap cm)) :
    RenderBootstrap.additionalTrustBundle env additionalTrustBundleFile spec =
      .ok { spec with AdditionalTrustBundle := (cm.Data "ca-bundle.crt").getD [] } := by
  unfold RenderBootstrap.additionalTrustBundle
  rw [ReadFile_present env additionalTrustBundleFile data hpath hfile]
  simp [Option.filter, hdec]

/-- The stages after the trust bundle leave `AdditionalTrustBundle` alone. -/
theorem prepare_additionalTrustBundle (env : Env) (a : Args) (p : Prepared)
    (h : RenderBootstrap.prepare env a = .ok p) :
    ∃ infra proxy network dns discovered trusted,
      env.createDiscoveredControllerConfigSpec infra network proxy dns = .ok discovered ∧
      RenderBootstrap.additionalTrustBundle env a.additionalTrustBundleFile discovered
        = .ok trusted ∧
      p.spec.AdditionalTrustBundle = trusted.AdditionalTrustBundle := by
  obtain ⟨infra, proxy, network, dns, discovered, trusted, configured, -, -, -, -, -, hdisc,
    htrust, hcloud, -, hspec, -⟩ := prepare_ok env a p h
  refine ⟨infra, proxy, network, dns, discovered, trusted, hdisc, htrust, ?_⟩
  rw [hspec, (completeSpec_fields a p.filesData configured).2.2]
  unfold RenderBootstrap.cloudProviderConfig at hcloud
  split_ifs at hcloud
  · cases hl : loadBootstrapCloudProviderConfig env infra a.cloudConfigFile with
    | error err => rw [hl] at hcloud; simp at hcloud
    | ok cloudConf =>
      rw [hl] at hcloud
      simp only [Except.ok.injEq] at hcloud
      rw [← hcloud]
  · simp only [Except.ok.injEq] at hcloud
    rw [← hcloud]

/-- C3: take a discover step that leaves `AdditionalTrustBundle` empty.  (1) When the
additional-trust-bundle file does not exist, the trust-bundle stage of `RenderBootstrap`
returns no error and leaves the spec as it was, and every run that builds the spec has
an empty `AdditionalTrustBundle`.  (2) When the file exists and decodes to a config map
with `X` under `ca-bundle.crt`, every run that builds the spec has
`AdditionalTrustBundle = X`. -/
theorem additionalTrustBundle_optional (env : Env) (a : Args)
    (hdiscover : ∀ infra network proxy dns discovered,
      env.createDiscoveredControllerConfigSpec infra network proxy dns = .ok discovered →
      discovered.AdditionalTrustBundle = []) :
    (env.files a.additionalTrustBundleFile = .absent →
      (∀ spec, RenderBootstrap.additionalTrustBundle env a.additionalTrustBundleFile spec
        = .ok spec) ∧
      ∀ p, RenderBootstrap.prepare env a = .ok p → p.spec.AdditionalTrustBundle = []) ∧
    (∀ data cm X, a.additionalTrustBundleFile ≠ "" →
      env.files a.additionalTrustBundleFile = .present data →
      env.decodeCore data = .ok (.ConfigMap cm) → cm.Data "ca-bundle.crt" = some X →
      ∀ p, RenderBootstrap.prepare env a = .ok p → p.spec.AdditionalTrustBundle = X) := by
  constructor
  · intro hfile
    refine ⟨fun spec => additionalTrustBundle_absent env _ spec hfile, ?_⟩
    intro p hprep
    obtain ⟨infra, proxy, network, dns, discovered, trusted, hdisc, htrust, hfield⟩ :=
      prepare_additionalTrustBundle env a p hprep
    rw [additionalTrustBundle_absent env _ discovered hfile] at htrust
    simp only [Except.ok.injEq] at htrust
    rw [hfield, ← htrust]
    exact hdiscover infra network proxy dns discovered hdisc
  · intro data cm X hpath hfile hdec hX p hprep
    obtain ⟨infra, proxy, network, dns, discovered, trusted, -, htrust, hfield⟩ :=
      prepare_additionalTrustBundle env a p hprep
    rw [additionalTrustBundle_configMap env _ discovered data cm hpath hfile hdec] at htrust
    simp only [Except.ok.injEq] at htrust
    rw [hfield, ← htrust, hX]
    rfl

/-- Witness of C3: the sample run without a trust-bundle file builds a spec with an
empty `AdditionalTrustBundle`; the sample run with the file builds one with the bytes
under `ca-bundle.crt`. -/
theorem additionalTrustBundle_optional_witness :
    (sampleFiles "no-trust" = .absent ∧
      ∃ p, RenderBootstrap.prepare (sampleEnv infraNoPlatform)
          { sampleArgs with additionalTrustBundleFile := "no-trust" } = .ok p ∧
        p.spec.AdditionalTrustBundle = []) ∧
    (sampleFiles "trust" = .present [5] ∧
      ∃ p, RenderBootstrap.prepare (sampleEnv infraNoPlatform) sampleArgs = .ok p ∧
        p.spec.AdditionalTrustBundle = [30, 31]) :=
  ⟨⟨by decide, _, rfl,
      ((additionalTrustBundle_optional (sampleEnv infraNoPlatform)
        { sampleArgs with additionalTrustBundleFile := "no-trust" }
        (fun _ _ _ _ _ hd => by cases hd; rfl)).1 (by decide)).2 _ rfl⟩,
    ⟨by decide, _, rfl,
      (additionalTrustBundle_optional (sampleEnv infraNoPlatform) sampleArgs
        (fun _ _ _ _ _ hd => by cases hd; rfl)).2 [5] (configMapOf "ca-bundle.crt" [30, 31])
        [30, 31] (by decide) (by decide) rfl rfl _ rfl⟩⟩

/-- A successful type assertion on the infrastructure payload. -/
theorem decodeInfrastructure_ok (env : Env) (payload : Bytes) (infra : configv1.Infrastructure)
    (h : RenderBootstrap.decodeInfrastructure env payload = .ok infra) :
    env.decodeConfig payload = .ok (.Infrastructure infra) := by
  unfold RenderBootstrap.decodeInfrastructure at h
  cases hd : env.decodeConfig payload with
  | error err => rw [hd] at h; simp at h
  | ok obji =>
    rw [hd] at h
    cases obji <;> simp at h
    rw [h]

/-- C8: for every input set whose infrastructure file holds a payload that fails to
decode or decodes to a type other than Infrastructure, `RenderBootstrap` returns an
error and performs no effect on the file system: no directory is created and no file is
written. -/
theorem malformed_infrastructure_writes_nothing (env : Env) (a : Args) (data : Bytes)
    (hfile : env.files a.infraFile = .present data)
    (hdec : ∀ infra, env.decodeConfig data ≠ .ok (.Infrastructure infra)) :
    ∃ err, RenderBootstrap env a = ([], .returned (some err)) := by
  unfold RenderBootstrap
  cases hprep : RenderBootstrap.prepare env a with
  | error err => exact ⟨err, rfl⟩
  | ok p =>
    exfalso
    obtain ⟨infra, proxy, network, dns, discovered, trusted, configured, hload, hinfra, -, -,
      -, -, -, -, -, -, -⟩ := prepare_ok env a p hprep
    obtain ⟨-, bytes, hbytes, hlookup⟩ :=
      readFiles_lookup_of_mem env _ _ _ hload a.infraFile (mandatory_mem_files a).1
    rw [hfile] at hbytes
    cases hbytes
    have hindex : mapIndex p.filesData a.infraFile = data := by simp [mapIndex, hlookup]
    rw [hindex] at hinfra
    exact hdec infra (decodeInfrastructure_ok env data infra hinfra)

/-- Witness of C8: the sample run whose infrastructure path names the proxy file (a
payload of another type), and the one whose infrastructure path names a file that does
not decode. -/
theorem malformed_infrastructure_writes_nothing_witness :
    (∃ err, RenderBootstrap (sampleEnv infraNoPlatform) { sampleArgs with infraFile := "proxy" }
      = ([], .returned (some err))) ∧
    ∃ err, RenderBootstrap (sampleEnv infraNoPlatform) { sampleArgs with infraFile := "root-ca" }
      = ([], .returned (some err)) :=
  ⟨malformed_infrastructure_writes_nothing (sampleEnv infraNoPlatform)
      { sampleArgs with infraFile := "proxy" } [2] (by decide) (by intro infra h; cases h),
    malformed_infrastructure_writes_nothing (sampleEnv infraNoPlatform)
      { sampleArgs with infraFile := "root-ca" } [10, 11] (by decide)
      (by intro infra h; cases h)⟩

/-- When the resolver returns, its input is the head of what it returns. -/
theorem appendManifestsByPlatform_ok (manifests planned : List manifest)
    (infra : configv1.Infrastructure)
    (h : appendManifestsByPlatform manifests infra = .ok planned) :
    ∃ platformStatus, infra.Status.PlatformStatus = some platformStatus ∧
      planned = manifests ++ platformExtension platformStatus := by
  cases hps : infra.Status.PlatformStatus with
  | none =>
    unfold appendManifestsByPlatform at h
    rw [hps] at h
    simp at h
  | some platformStatus =>
    rw [appendManifestsByPlatform_eq manifests infra platformStatus hps] at h
    simp only [Except.ok.injEq] at h
    exact ⟨platformStatus, rfl, h.symm⟩

/-- C9: in every run of `RenderBootstrap` that builds the spec, whatever the discover
step returned, the `PullSecret` of the spec is nil, also in the render configuration
handed to the renderer; the pull-secret file was read, and its bytes are the literal
data of the entry `bootstrap/manifests/machineconfigcontroller-pull-secret`, which is
the fifth entry of the baseline list and an entry of every planned list. -/
theorem pullSecret_cleared_and_planned (env : Env) (a : Args) (p : Prepared)
    (h : RenderBootstrap.prepare env a = .ok p) :
    p.spec.PullSecret = none ∧ p.config.ControllerConfig.PullSecret = none ∧
    ∃ pullSecret, env.files a.pullSecretFile = .present pullSecret ∧
      (RenderBootstrap.manifests a p.filesData)[4]? = some (pullSecretManifest pullSecret) ∧
      ∀ planned,
        appendManifestsByPlatform (RenderBootstrap.manifests a p.filesData) p.infra = .ok planned →
        pullSecretManifest pullSecret ∈ planned := by
  obtain ⟨infra, proxy, network, dns, discovered, trusted, configured, hload, -, -, -, -, -, -,
    -, -, hspec, hconfig⟩ := prepare_ok env a p h
  have hpull : p.spec.PullSecret = none := by
    rw [hspec]
    exact (completeSpec_fields a p.filesData configured).1
  obtain ⟨-, pullSecret, hfile, hlookup⟩ :=
    readFiles_lookup_of_mem env _ _ _ hload a.pullSecretFile (mandatory_mem_files a).2.2
  have hindex : mapIndex p.filesData a.pullSecretFile = pullSecret := by
    simp [mapIndex, hlookup]
  have hentry : (RenderBootstrap.manifests a p.filesData)[4]?
      = some (pullSecretManifest pullSecret) := by
    simp [RenderBootstrap.manifests, pullSecretManifest, hindex]
  refine ⟨hpull, ?_, pullSecret, hfile, hentry, ?_⟩
  · rw [hconfig]
    exact hpull
  · intro planned hplanned
    obtain ⟨platformStatus, -, hEq⟩ := appendManifestsByPlatform_ok _ _ _ hplanned
    rw [hEq]
    exact List.mem_append_left _ (List.getElem?_mem hentry)

/-- Witness of C9: in the sample run the discover step sets a pull-secret reference,
the spec built has none, and the bytes of the pull-secret file are planned. -/
theorem pullSecret_cleared_and_planned_witness :
    ∃ p, RenderBootstrap.prepare (sampleEnv infraBareMetal) sampleArgs = .ok p ∧
      p.spec.PullSecret = none ∧ p.config.ControllerConfig.PullSecret = none ∧
      ∃ pullSecret, sampleFiles "pull-secret" = .present pullSecret ∧
        (RenderBootstrap.manifests sampleArgs p.filesData)[4]?
          = some (pullSecretManifest pullSecret) ∧
        ∀ planned,
          appendManifestsByPlatform (RenderBootstrap.manifests sampleArgs p.filesData) p.infra
            = .ok planned →
          pullSecretManifest pullSecret ∈ planned :=
  ⟨_, rfl, pullSecret_cleared_and_planned (sampleEnv infraBareMetal) sampleArgs _ rfl⟩

/-! ## The writer loop -/

/-- A Go string has positive length exactly when it is not the empty string. -/
theorem length_pos_iff_ne_empty (s : String) : s.length > 0 ↔ s ≠ "" := by
  cases s with
  | mk chars =>
    cases chars with
    | nil => simp [String.length]
    | cons c cs =>
      simp only [String.length, List.length_cons, gt_iff_lt, Nat.zero_lt_succ, true_iff]
      intro hc
      have hdata := congrArg String.data hc
      exact List.cons_ne_nil c cs hdata

/-- What the switch of the loop yields without error is the expected write. -/
theorem manifestBytes_ok (env : Env) (config : renderConfig) (destinationDir : String)
    (m : manifest) (b : Option Bytes) (h : RenderBootstrap.manifestBytes env config m = .ok b) :
    expectedWrite env config destinationDir m
      = b.map (fun bytes => (env.Join destinationDir m.filename, bytes)) ∧
    (m.name ≠ "" → ∃ rendered, env.renderAsset config m.name = .ok rendered) := by
  unfold RenderBootstrap.manifestBytes at h
  unfold expectedWrite
  by_cases hname : m.name = ""
  · have hlen : ¬ m.name.length > 0 := fun hpos => (length_pos_iff_ne_empty _).1 hpos hname
    rw [if_neg hlen] at h
    simp only [ne_eq, hname, not_true_eq_false, if_false, false_implies, and_true]
    by_cases hdata : m.data = []
    · simp only [hdata, List.length_nil, gt_iff_lt, Nat.lt_irrefl, if_false,
        Except.ok.injEq] at h
      simp [hdata, ← h]
    · have hpos : m.data.length > 0 := List.length_pos.2 hdata
      rw [if_pos hpos] at h
      simp only [Except.ok.injEq] at h
      simp [hdata, ← h]
  · have hlen : m.name.length > 0 := (length_pos_iff_ne_empty _).2 hname
    rw [if_pos hlen] at h
    cases hr : env.renderAsset config m.name with
    | error err => rw [hr] at h; simp at h
    | ok rendered =>
      rw [hr] at h
      simp only [Except.ok.injEq] at h
      simp [hname, ← h]

/-- The effects of writing one entry when neither call fails. -/
theorem writeManifest_ok (env : Env) (destinationDir : String) (m : manifest) (b : Bytes)
    (ops result : List FsOp)
    (h : RenderBootstrap.writeManifest env destinationDir m b ops = (result, none)) :
    result = ops ++
      [.MkdirAll (env.Dir (env.Join destinationDir m.filename)) 0o655,
        .WriteFile (env.Join destinationDir m.filename) b 0o644] := by
  unfold RenderBootstrap.writeManifest at h
  simp only at h
  split at h
  · simp at h
  · split at h
    · simp at h
    · simp only [Prod.mk.injEq, and_true] at h
      rw [← h, List.append_assoc]
      rfl

/-- The loop, started after any effects: when it returns without error, it has added
the expected effects of the entries, in list order, and every named template rendered. -/
theorem writeManifests_ok (env : Env) (config : renderConfig) (destinationDir : String)
    (manifests : List manifest) :
    ∀ (ops result : List FsOp),
      RenderBootstrap.writeManifests env config destinationDir manifests ops = (result, none) →
      result = ops ++ manifests.flatMap (expectedOps env config destinationDir) ∧
      ∀ m ∈ manifests, m.name ≠ "" → ∃ rendered, env.renderAsset config m.name = .ok rendered := by
  induction manifests with
  | nil =>
    intro ops result h
    simp only [RenderBootstrap.writeManifests, Prod.mk.injEq, and_true] at h
    simp [h]
  | cons m rest ih =>
    intro ops result h
    rw [RenderBootstrap.writeManifests] at h
    cases hb : RenderBootstrap.manifestBytes env config m with
    | error err => rw [hb] at h; simp at h
    | ok b =>
      obtain ⟨hexp, hrender⟩ := manifestBytes_ok env config destinationDir m b hb
      rw [hb] at h
      cases b with
      | none =>
        simp only at h
        obtain ⟨hres, hall⟩ := ih ops result h
        constructor
        · rw [hres, List.flatMap_cons]
          simp [expectedOps, hexp]
        · intro m' hm'
          rcases List.mem_cons.1 hm' with rfl | hm'
          · exact hrender
          · exact hall m' hm'
      | some bytes =>
        simp only at h
        rcases hw : RenderBootstrap.writeManifest env destinationDir m bytes ops with ⟨ops', err⟩
        rw [hw] at h
        cases err with
        | some e => simp at h
        | none =>
          simp only at h
          obtain ⟨hres, hall⟩ := ih ops' result h
          have hops := writeManifest_ok env destinationDir m bytes ops ops' hw
          constructor
          · rw [hres, hops, List.flatMap_cons]
            simp [expectedOps, hexp, List.append_assoc]
          · intro m' hm'
            rcases List.mem_cons.1 hm' with rfl | hm'
            · exact hrender
            · exact hall m' hm'

/-- The writes among the expected effects of a list are the expected writes. -/
theorem writesOf_expectedOps (env : Env) (config : renderConfig) (destinationDir : String)
    (manifests : List manifest) :
    writesOf (manifests.flatMap (expectedOps env config destinationDir))
      = manifests.filterMap (expectedWrite env config destinationDir) := by
  induction manifests with
  | nil => rfl
  | cons m rest ih =>
    rw [List.flatMap_cons]
    unfold writesOf at ih ⊢
    rw [List.filterMap_append, ih, List.filterMap_cons]
    unfold expectedOps
    cases hw : expectedWrite env config destinationDir m with
    | none => rfl
    | some w => rfl

/-- The switch of the loop returns no error on an entry whose template, when it names
one, renders; in particular on an entry with neither a name nor data. -/
theorem manifestBytes_of_render (env : Env) (config : renderConfig) (m : manifest)
    (h : m.name ≠ "" → ∃ rendered, env.renderAsset config m.name = .ok rendered) :
    ∃ b, RenderBootstrap.manifestBytes env config m = .ok b := by
  unfold RenderBootstrap.manifestBytes
  by_cases hname : m.name = ""
  · have hlen : ¬ m.name.length > 0 := fun hpos => (length_pos_iff_ne_empty _).1 hpos hname
    rw [if_neg hlen]
    split_ifs
    · exact ⟨_, rfl⟩
    · exact ⟨_, rfl⟩
  · obtain ⟨rendered, hr⟩ := h hname
    rw [if_pos ((length_pos_iff_ne_empty _).2 hname), hr]
    exact ⟨_, rfl⟩

/-- Writing one entry when `os.MkdirAll` and `ioutil.WriteFile` do not fail: the two
effects, and no error. -/
theorem writeManifest_of_succeed (env : Env) (destinationDir : String) (m : manifest)
    (b : Bytes) (ops : List FsOp)
    (hmkdir : ∀ ops dir, env.MkdirAll ops dir 0o655 = none)
    (hwrite : ∀ ops path data, env.WriteFile ops path data 0o644 = none) :
    RenderBootstrap.writeManifest env destinationDir m b ops =
      (ops ++
        [.MkdirAll (env.Dir (env.Join destinationDir m.filename)) 0o655,
          .WriteFile (env.Join destinationDir m.filename) b 0o644], none) := by
  unfold RenderBootstrap.writeManifest
  simp only [hmkdir, hwrite, List.append_assoc]
  rfl

/-- The loop, started after any effects, when every named template renders and the file
system calls do not fail: it returns no error, after the expected effects of the
entries, in list order. -/
theorem writeManifests_of_succeed (env : Env) (config : renderConfig) (destinationDir : String)
    (manifests : List manifest)
    (hrender : ∀ m ∈ manifests, m.name ≠ "" →
      ∃ rendered, env.renderAsset config m.name = .ok rendered)
    (hmkdir : ∀ ops dir, env.MkdirAll ops dir 0o655 = none)
    (hwrite : ∀ ops path data, env.WriteFile ops path data 0o644 = none) :
    ∀ ops : List FsOp,
      RenderBootstrap.writeManifests env config destinationDir manifests ops =
        (ops ++ manifests.flatMap (expectedOps env config destinationDir), none) := by
  induction manifests with
  | nil =>
    intro ops
    simp [RenderBootstrap.writeManifests]
  | cons m rest ih =>
    intro ops
    have ihrest := ih (fun m' hm' => hrender m' (List.mem_cons_of_mem _ hm'))
    obtain ⟨b, hb⟩ := manifestBytes_of_render env config m (hrender m (List.mem_cons_self _ _))
    obtain ⟨hexp, -⟩ := manifestBytes_ok env config destinationDir m b hb
    rw [RenderBootstrap.writeManifests, hb, List.flatMap_cons]
    cases b with
    | none =>
      simp only
      rw [ihrest ops]
      simp [expectedOps, hexp]
    | some bytes =>
      simp only
      rw [writeManifest_of_succeed env destinationDir m bytes ops hmkdir hwrite]
      simp only
      rw [ihrest]
      simp [expectedOps, hexp, List.append_assoc]

/-- An error that the loop returns is the error of a call it made for an entry with a
name or with data: of the renderer on a named entry, of `os.MkdirAll` or of
`ioutil.WriteFile`.  An entry with neither a name nor data is the source of no error. -/
theorem writeManifests_error (env : Env) (config : renderConfig) (destinationDir : String)
    (manifests : List manifest) :
    ∀ (ops result : List FsOp) (err : GoError),
      RenderBootstrap.writeManifests env config destinationDir manifests ops
        = (result, some err) →
      ∃ m ∈ manifests, (m.name ≠ "" ∨ m.data ≠ []) ∧
        ((m.name ≠ "" ∧ env.renderAsset config m.name = .error err) ∨
          (∃ before dir, env.MkdirAll before dir 0o655 = some err) ∨
          ∃ before path data, env.WriteFile before path data 0o644 = some err) := by
  induction manifests with
  | nil =>
    intro ops result err h
    simp [RenderBootstrap.writeManifests] at h
  | cons m rest ih =>
    intro ops result err h
    have lift : (∃ m' ∈ rest, (m'.name ≠ "" ∨ m'.data ≠ []) ∧
        ((m'.name ≠ "" ∧ env.renderAsset config m'.name = .error err) ∨
          (∃ before dir, env.MkdirAll before dir 0o655 = some err) ∨
          ∃ before path data, env.WriteFile before path data 0o644 = some err)) →
        ∃ m' ∈ m :: rest, (m'.name ≠ "" ∨ m'.data ≠ []) ∧
        ((m'.name ≠ "" ∧ env.renderAsset config m'.name = .error err) ∨
          (∃ before dir, env.MkdirAll before dir 0o655 = some err) ∨
          ∃ before path data, env.WriteFile before path data 0o644 = some err) := by
      rintro ⟨m', hm', hrest⟩
      exact ⟨m', List.mem_cons_of_mem _ hm', hrest⟩
    rw [RenderBootstrap.writeManifests] at h
    cases hb : RenderBootstrap.manifestBytes env config m with
    | error e =>
      rw [hb] at h
      simp only [Prod.mk.injEq, Option.some.injEq] at h
      refine ⟨m, List.mem_cons_self _ _, ?_⟩
      unfold RenderBootstrap.manifestBytes at hb
      by_cases hlen : m.name.length > 0
      · have hname : m.name ≠ "" := (length_pos_iff_ne_empty _).1 hlen
        rw [if_pos hlen] at hb
        cases hr : env.renderAsset config m.name with
        | error e' =>
          rw [hr] at hb
          simp only [Except.error.injEq] at hb
          exact ⟨Or.inl hname, Or.inl ⟨hname, by rw [hb, h.2]⟩⟩
        | ok rendered => rw [hr] at hb; simp at hb
      · rw [if_neg hlen] at hb
        split_ifs at hb
    | ok b =>
      rw [hb] at h
      cases b with
      | none => exact lift (ih ops result err h)
      | some bytes =>
        simp only at h
        have hsome : m.name ≠ "" ∨ m.data ≠ [] := by
          obtain ⟨hexp, -⟩ := manifestBytes_ok env config destinationDir m (some bytes) hb
          by_contra hcon
          simp only [not_or, ne_eq, not_not] at hcon
          simp [expectedWrite, hcon.1, hcon.2] at hexp
        rcases hw : RenderBootstrap.writeManifest env destinationDir m bytes ops with ⟨ops', e⟩
        rw [hw] at h
        cases e with
        | none => exact lift (ih ops' result err h)
        | some e =>
          simp only [Prod.mk.injEq, Option.some.injEq] at h
          refine ⟨m, List.mem_cons_self _ _, hsome, Or.inr ?_⟩
          unfold RenderBootstrap.writeManifest at hw
          simp only at hw
          cases hmk : env.MkdirAll ops (env.Dir (env.Join destinationDir m.filename)) 0o655 with
          | some e1 =>
            rw [hmk] at hw
            simp only [Prod.mk.injEq, Option.some.injEq] at hw
            exact Or.inl ⟨_, _, by rw [hmk, hw.2, h.2]⟩
          | none =>
            rw [hmk] at hw
            simp only at hw
            cases hwr : env.WriteFile
                (ops ++ [.MkdirAll (env.Dir (env.Join destinationDir m.filename)) 0o655])
                (env.Join destinationDir m.filename) bytes 0o644 with
            | some e2 =>
              rw [hwr] at hw
              simp only [Prod.mk.injEq, Option.some.injEq] at hw
              exact Or.inr ⟨_, _, _, by rw [hwr, hw.2, h.2]⟩
            | none => rw [hwr] at hw; simp at hw

/-- C10: for every planned list and every run in which rendering and writing succeed
(every named template renders, `os.MkdirAll` and `ioutil.WriteFile` do not fail), the
writer loop of `RenderBootstrap` returns no error, and its effects are, in list order,
for each entry with a non-empty template name or non-empty literal data, the creation of
the parent directory followed by one write to `destinationDir` joined with the filename,
of the rendered template when the name is non-empty and of the literal data otherwise;
an entry with neither contributes no effect and no error. -/
theorem writer_loop_writes (env : Env) (config : renderConfig) (destinationDir : String)
    (manifests : List manifest)
    (hrender : ∀ m ∈ manifests, m.name ≠ "" →
      ∃ rendered, env.renderAsset config m.name = .ok rendered)
    (hmkdir : ∀ ops dir, env.MkdirAll ops dir 0o655 = none)
    (hwrite : ∀ ops path data, env.WriteFile ops path data 0o644 = none) :
    RenderBootstrap.writeManifests env config destinationDir manifests [] =
      (manifests.flatMap (expectedOps env config destinationDir), none) ∧
    writesOf (manifests.flatMap (expectedOps env config destinationDir))
      = manifests.filterMap (expectedWrite env config destinationDir) ∧
    (∀ m ∈ manifests, m.name ≠ "" → ∃ rendered,
      env.renderAsset config m.name = .ok rendered ∧
      expectedWrite env config destinationDir m
        = some (env.Join destinationDir m.filename, rendered)) ∧
    (∀ m ∈ manifests, m.name = "" → m.data ≠ [] →
      expectedWrite env config destinationDir m
        = some (env.Join destinationDir m.filename, m.data)) ∧
    (∀ m ∈ manifests, m.name = "" → m.data = [] →
      expectedWrite env config destinationDir m = none ∧
      expectedOps env config destinationDir m = [] ∧
      RenderBootstrap.manifestBytes env config m = .ok none) := by
  refine ⟨?_, writesOf_expectedOps env config destinationDir manifests, ?_, ?_, ?_⟩
  · rw [writeManifests_of_succeed env config destinationDir manifests hrender hmkdir hwrite [],
      List.nil_append]
  · intro m hm hname
    obtain ⟨rendered, hr⟩ := hrender m hm hname
    exact ⟨rendered, hr, by simp [expectedWrite, hname, hr]⟩
  · intro m _ hname hdata
    simp [expectedWrite, hname, hdata]
  · intro m _ hname hdata
    refine ⟨by simp [expectedWrite, hname, hdata],
      by simp [expectedOps, expectedWrite, hname, hdata], ?_⟩
    simp [RenderBootstrap.manifestBytes, hname, hdata]

/-- Witness of C10: the sample loop over the baseline with an empty pull secret and one
more entry with literal data, in the sample environment, whose renderer and file system
do not fail.  It returns without error and writes seven files, in list order; the entry
with neither a name nor data is passed over. -/
theorem writer_loop_writes_witness :
    RenderBootstrap.writeManifests (sampleEnv infraNoPlatform) sampleConfig "out"
        sampleManifests [] =
      (sampleManifests.flatMap (expectedOps (sampleEnv infraNoPlatform) sampleConfig "out"),
        none) ∧
    writesOf (sampleManifests.flatMap (expectedOps (sampleEnv infraNoPlatform) sampleConfig "out"))
      = sampleManifests.filterMap (expectedWrite (sampleEnv infraNoPlatform) sampleConfig "out") ∧
    sampleManifests.filterMap (expectedWrite (sampleEnv infraNoPlatform) sampleConfig "out") =
      [ ("out/bootstrap/manifests/machineconfigcontroller-controllerconfig.yaml", [55]),
        ("out/bootstrap/manifests/master.machineconfigpool.yaml", [39]),
        ("out/bootstrap/manifests/worker.machineconfigpool.yaml", [39]),
        ("out/bootstrap/machineconfigoperator-bootstrap-pod.yaml", [31]),
        ("out/manifests/csr-bootstrap-role-binding.yaml", [61]),
        ("out/manifests/kube-apiserver-serving-ca-configmap.yaml", [70]),
        ("out/bootstrap/manifests/machineconfigcontroller-pull-secret", [20, 21]) ] :=
  ⟨(writer_loop_writes (sampleEnv infraNoPlatform) sampleConfig "out" sampleManifests
      (fun _ _ _ => ⟨_, rfl⟩) (fun _ _ => rfl) (fun _ _ _ => rfl)).1,
    (writer_loop_writes (sampleEnv infraNoPlatform) sampleConfig "out" sampleManifests
      (fun _ _ _ => ⟨_, rfl⟩) (fun _ _ => rfl) (fun _ _ _ => rfl)).2.1,
    rfl⟩

/-- A call of `RenderBootstrap` that returns without error built the spec, planned a
list and ran the writer loop over it without error. -/
theorem RenderBootstrap_success (env : Env) (a : Args) (ops : List FsOp)
    (h : RenderBootstrap env a = (ops, .returned none)) :
    ∃ p planned, RenderBootstrap.prepare env a = .ok p ∧
      appendManifestsByPlatform (RenderBootstrap.manifests a p.filesData) p.infra = .ok planned ∧
      RenderBootstrap.writeManifests env p.config a.destinationDir planned [] = (ops, none) := by
  unfold RenderBootstrap at h
  cases hprep : RenderBootstrap.prepare env a with
  | error err => rw [hprep] at h; simp at h
  | ok p =>
    rw [hprep] at h
    simp only at h
    cases hplan : appendManifestsByPlatform (RenderBootstrap.manifests a p.filesData) p.infra with
    | error panic => rw [hplan] at h; simp at h
    | ok planned =>
      rw [hplan] at h
      simp only at h
      rcases hw : RenderBootstrap.writeManifests env p.config a.destinationDir planned []
        with ⟨ops', err⟩
      rw [hw] at h
      simp only [Prod.mk.injEq, Outcome.returned.injEq] at h
      exact ⟨p, planned, rfl, hplan, by rw [hw, h.1, h.2]⟩

/-- A call of `RenderBootstrap` that builds the spec and plans a list, with a renderer
that renders every named template of the list and file system calls that do not fail,
returns no error after the expected effects of the planned entries, in list order. -/
theorem RenderBootstrap_of_succeed (env : Env) (a : Args) (p : Prepared)
    (planned : List manifest)
    (hprep : RenderBootstrap.prepare env a = .ok p)
    (hplan : appendManifestsByPlatform (RenderBootstrap.manifests a p.filesData) p.infra
      = .ok planned)
    (hrender : ∀ m ∈ planned, m.name ≠ "" →
      ∃ rendered, env.renderAsset p.config m.name = .ok rendered)
    (hmkdir : ∀ ops dir, env.MkdirAll ops dir 0o655 = none)
    (hwrite : ∀ ops path data, env.WriteFile ops path data 0o644 = none) :
    RenderBootstrap env a =
      (planned.flatMap (expectedOps env p.config a.destinationDir), .returned none) := by
  unfold RenderBootstrap
  rw [hprep]
  simp only
  rw [hplan]
  simp only
  rw [writeManifests_of_succeed env p.config a.destinationDir planned hrender hmkdir hwrite [],
    List.nil_append]

end Bootstrap
